import Mathlib

/-!
Shallow embedding of the GuardDuty discovery / state-sync / verification
scripts of portfolio-aws-org-guardduty:
  * `src/discovery/state_sync.py`   (namespace `StateSync`)
  * `src/discovery/discover.py`     (namespace `Discover`)
  * `src/post-deployment/verify-guardduty.py` (namespace `Verify`)

Network calls (boto3, subprocess/terraform) are modelled as explicit
environments of oracles: every branch of the Python control flow is kept,
while the I/O result at each call site is an input.  All string operations
are re-implemented structurally over `List Char` so that the kernel can
evaluate them (Python `in`, `strip`, `split`, `replace`).
-/

/-- Membership test for a character pattern at the head of a list:
`charListStartsWith s p` is true when `p` is a prefix of `s`. -/
def charListStartsWith : List Char → List Char → Bool
  | _, [] => true
  | [], _ :: _ => false
  | c :: cs, p :: ps => c == p && charListStartsWith cs ps

/-- `charListContains p s`: the pattern `p` occurs somewhere inside `s`. -/
def charListContains (pat : List Char) : List Char → Bool
  | [] => charListStartsWith [] pat
  | c :: cs => charListStartsWith (c :: cs) pat || charListContains pat cs

/-- Python's substring test `pat in s`. -/
def strContainsSub (s pat : String) : Bool :=
  charListContains pat.toList s.toList

/-- A Python whitespace character, as `str.strip` sees it. -/
def isSpaceChar (c : Char) : Bool :=
  c == ' ' || c == '\t' || c == '\n' || c == '\r' || c == '\x0b' || c == '\x0c'

/-- Python `str.strip()`. -/
def pyStrip (s : String) : String :=
  String.mk (((s.toList.dropWhile isSpaceChar).reverse.dropWhile isSpaceChar).reverse)

/-- Python `str.split(sep)` for a one-character separator (`"\n"` here):
splitting the empty list yields one empty field, like Python's `"".split`. -/
def splitOnChar (sep : Char) : List Char → List (List Char)
  | [] => [[]]
  | c :: cs =>
    let rest := splitOnChar sep cs
    if c == sep then [] :: rest
    else
      match rest with
      | [] => [[c]]
      | g :: gs => (c :: g) :: gs

/-- Python `", ".join(parts)`. -/
def joinComma : List String → String
  | [] => ""
  | [x] => x
  | x :: y :: xs => x ++ ", " ++ joinComma (y :: xs)

/-- Python's `a or b` on an optional string: the left value is taken when it
is present and truthy (non-empty); otherwise the right value. -/
def py_or_str (a : Option String) (b : String) : String :=
  match a with
  | none => b
  | some s => if s = "" then b else s

/-- An observable side effect of one run: the refresh-only warm-up plan, a
cross-account session acquisition, a probe API call, or a state-store
imported resource (`terraform import address resource_id`). -/
inductive Event
  | warmUp
  | sessionCall (account : String) (region : String)
  | probeCall (api : String) (region : String)
  | importCall (address : String) (resource_id : String)
deriving DecidableEq

namespace StateSync

/-- `ALL_REGIONS` of `state_sync.py` (lines 18-36). -/
def ALL_REGIONS : List String :=
  ["us-east-1", "us-east-2", "us-west-1", "us-west-2", "eu-west-1",
   "eu-west-2", "eu-west-3", "eu-central-1", "eu-north-1", "ap-southeast-1",
   "ap-southeast-2", "ap-northeast-1", "ap-northeast-2", "ap-northeast-3",
   "ap-south-1", "ca-central-1", "sa-east-1"]

/-- `IMPORT_RETRIES` (state_sync.py line 39): total number of attempts of
one `terraform import`. -/
def IMPORT_RETRIES : Nat := 2

/-- `IMPORT_RETRY_DELAY` (line 40), seconds slept between attempts: the
sleep itself is I/O and has no further effect on the computation. -/
def IMPORT_RETRY_DELAY : Nat := 5

/-- How one `subprocess.run` of terraform can end: a completed process with
a return code and combined stdout+stderr, a timeout, or a raised
exception. -/
inductive TfExec
  | completed (returncode : Int) (output : String)
  | timedOut (cmd : String)
  | raised (msg : String)
deriving DecidableEq

/-- `run_terraform_cmd` (lines 43-59): `(success, output)`; a timeout or an
exception yields `(False, message)`. -/
def run_terraform_cmd (exec : TfExec) (timeout : Nat) : Bool × String :=
  match exec with
  | TfExec.completed returncode output => (decide (returncode = 0), output)
  | TfExec.timedOut cmd =>
      (false, "Command timed out after " ++ toString timeout ++ "s: " ++ cmd)
  | TfExec.raised msg => (false, msg)

/-- `get_state_resources` (lines 62-67): the addresses of
`terraform state list`, or the empty set when the command fails. -/
def get_state_resources (exec : TfExec) : List String :=
  let r := run_terraform_cmd exec 120
  if r.1 then
    if pyStrip r.2 = "" then []
    else (splitOnChar '\n' (pyStrip r.2).toList).map String.mk
  else []

/-- `resource_exists_in_state` (lines 70-72). -/
def resource_exists_in_state (address : String) (state_resources : List String) : Bool :=
  state_resources.contains address

/-- One attempt of `terraform import` counts as success when the command
succeeded or its output reports the address as already managed
(state_sync.py lines 82-85). -/
def attempt_result_ok (r : Bool × String) : Bool :=
  r.1 || strContainsSub r.2 "Resource already managed"

/-- The retry loop of `import_resource` (lines 80-89): `remaining` attempts
left, `attempt` the 1-based index of the next attempt. -/
def import_resource_loop (runs : Nat → Bool × String) : Nat → Nat → Bool
  | 0, _ => false
  | Nat.succ remaining, attempt =>
    let res := runs attempt
    if res.1 then true
    else if strContainsSub res.2 "Resource already managed" then true
    else import_resource_loop runs remaining (attempt + 1)

/-- `import_resource` (lines 75-89): true when the resource was imported or
already exists, after at most `IMPORT_RETRIES` attempts. -/
def import_resource (runs : Nat → Bool × String) : Bool :=
  import_resource_loop runs IMPORT_RETRIES 1

/-- The fields of `bootstrap.auto.tfvars.json` that `state_sync.py` reads;
a missing key is `none`. -/
structure TfVarsJson where
  management_account_id : Option String
  audit_account_id : Option String
  resource_prefix : Option String
  deployment_name : Option String
deriving DecidableEq

/-- `get_account_ids_from_tfvars` (lines 92-106): `(management, audit)`,
empty strings when the file is missing, unreadable or lacks the keys. -/
structure AccountIds where
  management : String
  audit : String
deriving DecidableEq

def get_account_ids_from_tfvars (tfvars : Option TfVarsJson) : AccountIds :=
  match tfvars with
  | none => { management := "", audit := "" }
  | some tv =>
      { management := (tv.management_account_id).getD "",
        audit := (tv.audit_account_id).getD "" }

/-- `region_to_module_suffix` (lines 129-131): `us-east-1 -> us_east_1`. -/
def region_to_module_suffix (region : String) : String :=
  String.mk (region.toList.map (fun c => if c == '-' then '_' else c))

/-- One publishing destination as `list_publishing_destinations` returns
it: its `DestinationType` (absent key modelled as `none`) and
`DestinationId`. -/
structure Destination where
  destination_type : Option String
  destination_id : String
deriving DecidableEq

/-- The oracle environment of one state-sync run: the results of every
external call the script can make.  `list_detectors` takes the session
(`none` = the caller's own management-account credentials, `some a` = a
cross-account session into account `a`); a `ClientError` is an
`Except.error`. -/
structure CloudEnv where
  state_list_exec : TfExec
  warm_up_exec : TfExec
  assume_role_ok : String → String → Bool
  list_organization_admin_accounts : String → Except String (List String)
  list_detectors : Option String → String → Except String (List String)
  list_publishing_destinations : String → String → String → Except String (List Destination)
  terraform_import_exec : String → String → Nat → TfExec

/-- Run one `terraform import` attempt of `address` with `resource_id`. -/
def import_runs (env : CloudEnv) (address resource_id : String) : Nat → Bool × String :=
  fun attempt => run_terraform_cmd (env.terraform_import_exec address resource_id attempt) 120

/-- The per-target result a sync records through its counters:
`alreadyTracked` (skipped), `imported`, one of the three failure modes
(all counted by `failed_count`), or `notApplicable` (the loop body falls
through without touching a counter). -/
inductive Outcome
  | alreadyTracked
  | imported
  | failedSession
  | failedProbe
  | failedImport
  | notApplicable
deriving DecidableEq

/-- A category sweep: one outcome per target plus the emitted events. -/
structure SyncResult (α : Type) where
  outcomes : List (α × Outcome)
  events : List Event
deriving DecidableEq

/-- Fan a per-target step over the target list, in list order. -/
def sweep {α : Type} (targets : List α)
    (step : α → Outcome × List Event) : SyncResult α :=
  { outcomes := targets.map (fun t => (t, (step t).1)),
    events := targets.flatMap (fun t => (step t).2) }

def count_outcome {α : Type} (r : SyncResult α) (o : Outcome) : Nat :=
  (r.outcomes.filter (fun p => decide (p.2 = o))).length

def imported_count {α : Type} (r : SyncResult α) : Nat :=
  count_outcome r Outcome.imported

def skipped_count {α : Type} (r : SyncResult α) : Nat :=
  count_outcome r Outcome.alreadyTracked

def failed_count {α : Type} (r : SyncResult α) : Nat :=
  count_outcome r Outcome.failedSession + count_outcome r Outcome.failedProbe +
    count_outcome r Outcome.failedImport

def not_applicable_count {α : Type} (r : SyncResult α) : Nat :=
  count_outcome r Outcome.notApplicable

/-- The delegated-admin address of a region (state_sync.py line 215). -/
def org_admin_address (region : String) : String :=
  "module.guardduty_org_" ++ region_to_module_suffix region ++
    "[0].aws_guardduty_organization_admin_account.main"

/-- Loop body of `sync_guardduty_org_admin` (lines 212-238) for one region. -/
def org_admin_step (env : CloudEnv) (audit_account_id : String)
    (state_resources : List String) (region : String) : Outcome × List Event :=
  let admin_tf_address := org_admin_address region
  if resource_exists_in_state admin_tf_address state_resources then
    (Outcome.alreadyTracked, [])
  else
    match env.list_organization_admin_accounts region with
    | Except.error _ =>
        (Outcome.failedProbe, [Event.probeCall "list_organization_admin_accounts" region])
    | Except.ok admin_accounts =>
        if admin_accounts.contains audit_account_id then
          if import_resource (import_runs env admin_tf_address audit_account_id) then
            (Outcome.imported,
              [Event.probeCall "list_organization_admin_accounts" region,
               Event.importCall admin_tf_address audit_account_id])
          else
            (Outcome.failedImport,
              [Event.probeCall "list_organization_admin_accounts" region,
               Event.importCall admin_tf_address audit_account_id])
        else
          (Outcome.notApplicable, [Event.probeCall "list_organization_admin_accounts" region])

/-- `sync_guardduty_org_admin` (lines 197-243): skipped wholly when no
audit account ID is available, else one step per region. -/
def sync_guardduty_org_admin (env : CloudEnv) (tfvars : Option TfVarsJson)
    (state_resources : List String) : SyncResult String :=
  let account_ids := get_account_ids_from_tfvars tfvars
  if account_ids.audit = "" then { outcomes := [], events := [] }
  else sweep ALL_REGIONS (org_admin_step env account_ids.audit state_resources)

/-- The detector address of an account / region (state_sync.py line 274). -/
def detector_address ( account_prefix region : String) : String :=
  "module.guardduty_" ++ account_prefix ++ "_" ++ region_to_module_suffix region ++
    "[0].aws_guardduty_detector.main"

/-- The `try` block of the detector loop (state_sync.py lines 290-304):
list the detectors with the given session and import the first one. -/
def detector_probe (env : CloudEnv) (tf_address : String) (session : Option String)
    (region : String) (pre : List Event) : Outcome × List Event :=
  match env.list_detectors session region with
  | Except.error _ => (Outcome.failedProbe, pre ++ [Event.probeCall "list_detectors" region])
  | Except.ok [] => (Outcome.notApplicable, pre ++ [Event.probeCall "list_detectors" region])
  | Except.ok (detector_id :: _) =>
      if import_resource (import_runs env tf_address detector_id) then
        (Outcome.imported,
          pre ++ [Event.probeCall "list_detectors" region,
                  Event.importCall tf_address detector_id])
      else
        (Outcome.failedImport,
          pre ++ [Event.probeCall "list_detectors" region,
                  Event.importCall tf_address detector_id])

/-- Loop body of `sync_guardduty_detectors` (lines 272-305) for one
`(account_prefix, assume_account_id, region)` target. -/
def detector_step (env : CloudEnv) (state_resources : List String)
    ( account_prefix : String) (assume_account_id : Option String) (region : String) :
    Outcome × List Event :=
  let tf_address := detector_address account_prefix region
  if resource_exists_in_state tf_address state_resources then
    (Outcome.alreadyTracked, [])
  else
    match assume_account_id with
    | some a =>
        if env.assume_role_ok a region then
          detector_probe env tf_address (some a) region [Event.sessionCall a region]
        else (Outcome.failedSession, [Event.sessionCall a region])
    | none => detector_probe env tf_address none region []

/-- `accounts_to_sync` (lines 266-269) crossed with `ALL_REGIONS`, in the
source's nesting order (accounts outer, regions inner). -/
def detector_targets (audit : String) : List (String × Option String × String) :=
  ([("mgmt", (none : Option String)), ("audit", some audit)]).flatMap
    (fun a => ALL_REGIONS.map (fun r => (a.1, a.2, r)))

/-- `sync_guardduty_detectors` (lines 246-310). -/
def sync_guardduty_detectors (env : CloudEnv) (tfvars : Option TfVarsJson)
    (state_resources : List String) : SyncResult (String × Option String × String) :=
  let account_ids := get_account_ids_from_tfvars tfvars
  if account_ids.audit = "" then { outcomes := [], events := [] }
  else
    sweep (detector_targets account_ids.audit)
      (fun t => detector_step env state_resources t.1 t.2.1 t.2.2)

/-- The publishing-destination address of a region (state_sync.py line 333). -/
def pub_address (region : String) : String :=
  "module.guardduty_audit_" ++ region_to_module_suffix region ++
    "[0].aws_guardduty_publishing_destination.findings[0]"

/-- Loop body of `sync_guardduty_publishing_destinations` (lines 331-369)
for one region: always a cross-account session into the audit account. -/
def pub_step (env : CloudEnv) (audit_account_id : String)
    (state_resources : List String) (region : String) : Outcome × List Event :=
  let tf_address := pub_address region
  if resource_exists_in_state tf_address state_resources then
    (Outcome.alreadyTracked, [])
  else if env.assume_role_ok audit_account_id region then
    let pre := [Event.sessionCall audit_account_id region]
    match env.list_detectors (some audit_account_id) region with
    | Except.error _ => (Outcome.failedProbe, pre ++ [Event.probeCall "list_detectors" region])
    | Except.ok [] => (Outcome.notApplicable, pre ++ [Event.probeCall "list_detectors" region])
    | Except.ok (detector_id :: _) =>
        match env.list_publishing_destinations audit_account_id region detector_id with
        | Except.error _ =>
            (Outcome.failedProbe,
              pre ++ [Event.probeCall "list_detectors" region,
                      Event.probeCall "list_publishing_destinations" region])
        | Except.ok dests =>
            match dests.find? (fun d => d.destination_type == some "S3") with
            | none =>
                (Outcome.notApplicable,
                  pre ++ [Event.probeCall "list_detectors" region,
                          Event.probeCall "list_publishing_destinations" region])
            | some dest =>
                let import_id := detector_id ++ ":" ++ dest.destination_id
                if import_resource (import_runs env tf_address import_id) then
                  (Outcome.imported,
                    pre ++ [Event.probeCall "list_detectors" region,
                            Event.probeCall "list_publishing_destinations" region,
                            Event.importCall tf_address import_id])
                else
                  (Outcome.failedImport,
                    pre ++ [Event.probeCall "list_detectors" region,
                            Event.probeCall "list_publishing_destinations" region,
                            Event.importCall tf_address import_id])
  else (Outcome.failedSession, [Event.sessionCall audit_account_id region])

/-- `sync_guardduty_publishing_destinations` (lines 313-374). -/
def sync_guardduty_publishing_destinations (env : CloudEnv) (tfvars : Option TfVarsJson)
    (state_resources : List String) : SyncResult String :=
  let account_ids := get_account_ids_from_tfvars tfvars
  if account_ids.audit = "" then { outcomes := [], events := [] }
  else sweep ALL_REGIONS (pub_step env account_ids.audit state_resources)

/-- The CloudWatch log-group address (state_sync.py line 168). -/
def log_group_address : String := "aws_cloudwatch_log_group.deployments"

/-- `sync_cloudwatch_log_group` (lines 159-194): one non-matrix target. -/
def sync_cloudwatch_log_group (env : CloudEnv) (tfvars : Option TfVarsJson)
    (state_resources : List String) : Outcome × List Event :=
  if resource_exists_in_state log_group_address state_resources then
    (Outcome.alreadyTracked, [])
  else
    match tfvars with
    | none => (Outcome.notApplicable, [])
    | some tv =>
        let resource_pfx := (tv.resource_prefix).getD ""
        let deployment_name := (tv.deployment_name).getD ""
        if resource_pfx = "" ∨ deployment_name = "" then (Outcome.notApplicable, [])
        else
          let log_group_name := "/" ++ resource_pfx ++ "/deployments/" ++ deployment_name
          if import_resource (import_runs env log_group_address log_group_name) then
            (Outcome.imported, [Event.importCall log_group_address log_group_name])
          else (Outcome.failedImport, [Event.importCall log_group_address log_group_name])

/-- `warm_up_providers` (lines 134-156): one refresh-only plan whose result
is only logged. -/
def warm_up_providers (env : CloudEnv) : Bool × String :=
  run_terraform_cmd env.warm_up_exec 300

/-- Everything `main` of `state_sync.py` (lines 377-427) computes, plus
the event trace in program order. -/
structure Report where
  state_resources : List String
  warm_up_run : Bool
  log_group : Outcome × List Event
  org_admin : SyncResult String
  detectors : SyncResult (String × Option String × String)
  publishing : SyncResult String
  trace : List Event
deriving DecidableEq

/-- `main` of `state_sync.py` (lines 377-427): read the state snapshot
once, warm up the providers exactly when it is empty, then run the four
sync categories in order.  The GuardDuty organization configuration is
deliberately never synced (comment at lines 412-415). -/
def state_sync_main (env : CloudEnv) (tfvars : Option TfVarsJson) : Report :=
  let state_resources := get_state_resources env.state_list_exec
  let warm_up_run := decide (state_resources.length = 0)
  let warm_up_events := if state_resources.length = 0 then [Event.warmUp] else []
  let lg := sync_cloudwatch_log_group env tfvars state_resources
  let oa := sync_guardduty_org_admin env tfvars state_resources
  let det := sync_guardduty_detectors env tfvars state_resources
  let pub := sync_guardduty_publishing_destinations env tfvars state_resources
  { state_resources := state_resources,
    warm_up_run := warm_up_run,
    log_group := lg,
    org_admin := oa,
    detectors := det,
    publishing := pub,
    trace := warm_up_events ++ lg.2 ++ oa.events ++ det.events ++ pub.events }

end StateSync

namespace Discover

/-- The fields of `config.yaml` that `discover.py` reads; a missing key is
`none`. -/
structure ConfigYaml where
  resource_prefix : Option String
  primary_region : Option String
  audit_account_id : Option String
  tags : Option (List (String × String))
  deployment_name : Option String
deriving DecidableEq

/-- The JSON value of the org-baseline SSM parameter; each field is
optional, mirroring `dict.get` on the parsed value. -/
structure SsmConfig where
  primary_region : Option String
  audit_account_id : Option String
  log_archive_account_id : Option String
  organization_id : Option String
  tags : Option (List (String × String))
deriving DecidableEq

def empty_ssm_config : SsmConfig := ⟨none, none, none, none, none⟩

/-- How a `ssm.get_parameter` call can end: the parameter's parsed value,
`ParameterNotFound`, or any other `ClientError` code. -/
inductive SsmFetch
  | found (value : SsmConfig)
  | notFound
  | errorCode (code : String)
deriving DecidableEq

/-- The value `read_ssm_org_config` (discover.py lines 125-146) builds from
one fetch result: the parsed config, or `{}` when the parameter is
missing or unreadable. -/
def ssm_fetch_result : SsmFetch → SsmConfig
  | SsmFetch.found value => value
  | SsmFetch.notFound => empty_ssm_config
  | SsmFetch.errorCode _ => empty_ssm_config

/-- The fields `discover_guardduty_org_config` reads from
`describe_organization_configuration` (discover.py lines 79-96):
`AutoEnable` (default `False`), `AutoEnableOrganizationMembers` (default
`""`), and the three nested data-source auto-enable flags (default
`False`, a missing nested key is `false`). -/
structure OrgCfgResp where
  auto_enable : Bool
  auto_enable_members : Option String
  s3_auto_enable : Bool
  k8s_auto_enable : Bool
  malware_auto_enable : Bool
deriving DecidableEq

/-- The oracle environment of one discovery run. -/
structure DiscoverEnv where
  caller_account : String
  ssm_fetch : String → String → SsmFetch
  list_delegated_administrators : String → Except String (List String)
  assume_role_ok : String → String → Bool
  list_detectors : String → String → Except String (List String)
  describe_org_config : String → String → String → Except String OrgCfgResp

/-- `read_ssm_org_config` (lines 125-146): one parameter read at
`/{resource_prefix}/org-baseline/config`. -/
def read_ssm_org_config (env : DiscoverEnv) (resource_pfx region : String) : SsmConfig :=
  ssm_fetch_result (env.ssm_fetch ("/" ++ resource_pfx ++ "/org-baseline/config") region)

/-- discover.py line 174: `config.get("primary_region") or
ssm_config.get("primary_region", "us-east-1")`. -/
def merge_primary_region (config : ConfigYaml) (ssm_config : SsmConfig) : String :=
  py_or_str config.primary_region ((ssm_config.primary_region).getD "us-east-1")

/-- discover.py line 175: `config.get("audit_account_id") or
ssm_config.get("audit_account_id", "")`. -/
def merge_audit_account_id (config : ConfigYaml) (ssm_config : SsmConfig) : String :=
  py_or_str config.audit_account_id ((ssm_config.audit_account_id).getD "")

/-- discover.py line 176: only the shared store supplies this field. -/
def merge_log_archive_account_id (ssm_config : SsmConfig) : String :=
  (ssm_config.log_archive_account_id).getD ""

/-- discover.py line 177: only the shared store supplies this field. -/
def merge_organization_id (ssm_config : SsmConfig) : String :=
  (ssm_config.organization_id).getD ""

/-- discover.py line 178: `ssm_config.get("tags", config.get("tags", {}))`. -/
def merge_custom_tags (config : ConfigYaml) (ssm_config : SsmConfig) : List (String × String) :=
  (ssm_config.tags).getD ((config.tags).getD [])

/-- The discovery result record of `discover_guardduty_org_config`
(discover.py lines 40-47). -/
structure GdOrgInfo where
  guardduty_org_exists : Bool
  guardduty_delegated_admin : String
  guardduty_auto_enable : Bool
  guardduty_s3_protection : Bool
  guardduty_eks_protection : Bool
  guardduty_malware_protection : Bool
deriving DecidableEq

def gd_org_info_default : GdOrgInfo := ⟨false, "", false, false, false, false⟩

/-- `discover_guardduty_org_config` (discover.py lines 32-122): probe the
delegated administrator, then (only when it matches the audit account)
assume into the audit account and read the organization configuration.
Every `ClientError` is caught and leaves the result built so far. -/
def discover_guardduty_org_config (env : DiscoverEnv)
    (primary_region audit_account_id : String) : GdOrgInfo × List Event :=
  match env.list_delegated_administrators primary_region with
  | Except.error _ =>
      (gd_org_info_default, [Event.probeCall "list_delegated_administrators" primary_region])
  | Except.ok [] =>
      (gd_org_info_default, [Event.probeCall "list_delegated_administrators" primary_region])
  | Except.ok (admin :: _) =>
      let r1 : GdOrgInfo :=
        { gd_org_info_default with
          guardduty_delegated_admin := admin, guardduty_org_exists := true }
      let pre := [Event.probeCall "list_delegated_administrators" primary_region]
      if admin = audit_account_id then
        if env.assume_role_ok audit_account_id primary_region then
          let pre := pre ++ [Event.sessionCall audit_account_id primary_region]
          match env.list_detectors audit_account_id primary_region with
          | Except.error _ => (r1, pre ++ [Event.probeCall "list_detectors" primary_region])
          | Except.ok [] => (r1, pre ++ [Event.probeCall "list_detectors" primary_region])
          | Except.ok (detector_id :: _) =>
              let pre := pre ++ [Event.probeCall "list_detectors" primary_region]
              match env.describe_org_config audit_account_id primary_region detector_id with
              | Except.error _ =>
                  (r1, pre ++ [Event.probeCall "describe_organization_configuration" primary_region])
              | Except.ok oc =>
                  ({ r1 with
                     guardduty_auto_enable :=
                       oc.auto_enable || decide ((oc.auto_enable_members).getD "" = "ALL"),
                     guardduty_s3_protection := oc.s3_auto_enable,
                     guardduty_eks_protection := oc.k8s_auto_enable,
                     guardduty_malware_protection := oc.malware_auto_enable },
                   pre ++ [Event.probeCall "describe_organization_configuration" primary_region])
        else (r1, pre ++ [Event.sessionCall audit_account_id primary_region])
      else (r1, pre)

/-- The merged configuration the discovery run settles on (discover.py
lines 174-178). -/
structure EffectiveConfig where
  primary_region : String
  audit_account_id : String
  log_archive_account_id : String
  organization_id : String
  custom_tags : List (String × String)
deriving DecidableEq

/-- The observable outcome of `main` of `discover.py` (lines 149-304), up
to the delegated-admin validation: the exit code, the fatal error lines
printed (empty on success), every probe event issued, and the merged
configuration when the run got that far. -/
structure DiscoverReport where
  exit_code : Nat
  fatal_messages : List String
  probe_events : List Event
  effective : Option EffectiveConfig
  info : Option GdOrgInfo
deriving DecidableEq

/-- `main` of `discover.py` (lines 149-214): the resource_prefix check
(lines 158-162) aborts before the shared store is read; the
audit_account_id check (lines 193-198) aborts after the merge but before
any GuardDuty probe; the delegated-admin checks (lines 203-214) abort
after probing. -/
def discover_main (config : ConfigYaml) (env : DiscoverEnv) : DiscoverReport :=
  let resource_pfx := (config.resource_prefix).getD ""
  if resource_pfx = "" then
    { exit_code := 1,
      fatal_messages := ["Error: resource_prefix is required in config.yaml"],
      probe_events := [], effective := none, info := none }
  else
    let initial_region := (config.primary_region).getD "us-east-1"
    let ssm_config := read_ssm_org_config env resource_pfx initial_region
    let primary_region := merge_primary_region config ssm_config
    let audit_account_id := merge_audit_account_id config ssm_config
    let effective : EffectiveConfig :=
      { primary_region := primary_region,
        audit_account_id := audit_account_id,
        log_archive_account_id := merge_log_archive_account_id ssm_config,
        organization_id := merge_organization_id ssm_config,
        custom_tags := merge_custom_tags config ssm_config }
    if audit_account_id = "" then
      { exit_code := 1,
        fatal_messages :=
          ["ERROR: audit_account_id not available",
           "Ensure org-baseline SSM parameter exists or set audit_account_id in config.yaml",
           "This project requires portfolio-aws-org-baseline to be deployed first."],
        probe_events := [], effective := some effective, info := none }
    else
      let probed := discover_guardduty_org_config env primary_region audit_account_id
      if probed.1.guardduty_org_exists = false then
        { exit_code := 1,
          fatal_messages :=
            ["ERROR: GuardDuty delegated admin is not registered",
             "The GuardDuty delegated admin must be registered by portfolio-aws-org-baseline"],
          probe_events := probed.2, effective := some effective, info := some probed.1 }
      else if probed.1.guardduty_delegated_admin ≠ audit_account_id then
        { exit_code := 1,
          fatal_messages := ["ERROR: Delegated admin mismatch"],
          probe_events := probed.2, effective := some effective, info := some probed.1 }
      else
        { exit_code := 0, fatal_messages := [],
          probe_events := probed.2, effective := some effective, info := some probed.1 }

end Discover

namespace Verify

/-- `ALL_REGIONS` of `verify-guardduty.py` (lines 32-50): the same fixed
list as the state-sync script. -/
def ALL_REGIONS : List String := StateSync.ALL_REGIONS

/-- The fields `check_detector` reads from `get_detector`
(verify-guardduty.py lines 234-246): the detector `Status` and the three
nested data-source statuses; a missing key is `none`. -/
structure DetectorDetail where
  status : Option String
  s3_status : Option String
  k8s_status : Option String
  malware_status : Option String
deriving DecidableEq

/-- The fields `check_org_config` reads from
`describe_organization_configuration` (lines 182-192):
`AutoEnableOrganizationMembers` (default "NONE") and the three nested
auto-enable booleans (default `False`). -/
structure OrgCfgDescribe where
  auto_enable_members : Option String
  s3_auto_enable : Bool
  k8s_auto_enable : Bool
  malware_auto_enable : Bool
deriving DecidableEq

/-- The oracle environment of one verification run.  The first argument of
each probe is the session: `none` is the caller's own management-account
credentials, `some a` a session assumed into account `a`. -/
structure VEnv where
  assume_role_ok : String → String → Bool
  list_detectors : Option String → String → Except String (List String)
  get_detector : Option String → String → String → Except String DetectorDetail
  describe_organization_configuration :
    Option String → String → String → Except String OrgCfgDescribe
deriving Inhabited

/-- `assume_role` (verify-guardduty.py lines 67-86) returns `None` on any
`ClientError`; the verifier's loops then fall back to the caller's own
credentials (`check_detector` line 220-223, `check_org_config` lines
160-167). -/
def session_or_fallback (env : VEnv) (assume_account_id : Option String)
    (region : String) : Option String :=
  match assume_account_id with
  | some a => if env.assume_role_ok a region then some a else none
  | none => none

/-- The result record of `check_detector` (lines 200-251). -/
structure CheckDetectorResult where
  enabled : Bool
  detector_id : Option String
  s3_enabled : Bool
  k8s_enabled : Bool
  malware_enabled : Bool
  error : Option String
deriving DecidableEq

/-- `check_detector` (lines 200-251): an empty detector list returns the
all-false record with `error = None`; a `ClientError` sets `error`. -/
def check_detector (env : VEnv) (session : Option String) (region : String) :
    CheckDetectorResult :=
  match env.list_detectors session region with
  | Except.error e => ⟨false, none, false, false, false, some e⟩
  | Except.ok [] => ⟨false, none, false, false, false, none⟩
  | Except.ok (detector_id :: _) =>
      match env.get_detector session region detector_id with
      | Except.error e => ⟨false, some detector_id, false, false, false, some e⟩
      | Except.ok d =>
          ⟨d.status == some "ENABLED", some detector_id,
           d.s3_status == some "ENABLED", d.k8s_status == some "ENABLED",
           d.malware_status == some "ENABLED", none⟩

/-- How one region of a verifier dimension is tallied. -/
inductive DimTally
  | ok
  | missing
  | err
deriving DecidableEq

/-- How `main` buckets one `check_detector` result (verify-guardduty.py
lines 437-443): error / enabled / missing-with-issue. -/
def detector_dim_classify (account_name region : String) (result : CheckDetectorResult) :
    DimTally × Option String :=
  match result.error with
  | some _ => (DimTally.err, none)
  | none =>
      if result.enabled then (DimTally.ok, none)
      else (DimTally.missing, some (account_name ++ " (" ++ region ++ "): Detector not enabled"))

/-- One iteration of the detector-dimension loop of `main`
(verify-guardduty.py lines 434-443).  A failed `assume_role` yields
`session = None` and the check silently proceeds with the caller's
credentials. -/
def detector_dim_step (env : VEnv) (assume_account_id : Option String)
    (account_name region : String) : DimTally × Option String :=
  detector_dim_classify account_name region
    (check_detector env (session_or_fallback env assume_account_id region) region)

/-- The tallies of one account's detector dimension (lines 430-450). -/
structure DetectorDim where
  det_ok : Nat
  det_missing : Nat
  det_errors : Nat
  issues : List String
deriving DecidableEq

/-- The detector-dimension sweep over `ALL_REGIONS` for one account row of
the `accounts` table (lines 418-443). -/
def detector_dimension (env : VEnv) (assume_account_id : Option String)
    (account_name : String) : DetectorDim :=
  let results := ALL_REGIONS.map (fun r => detector_dim_step env assume_account_id account_name r)
  { det_ok := (results.filter (fun p => decide (p.1 = DimTally.ok))).length,
    det_missing := (results.filter (fun p => decide (p.1 = DimTally.missing))).length,
    det_errors := (results.filter (fun p => decide (p.1 = DimTally.err))).length,
    issues := results.filterMap (fun p => p.2) }

/-- The result record of `check_org_config` (lines 135-197). -/
structure CheckOrgResult where
  configured : Bool
  auto_enable : Option String
  s3_auto_enable : Bool
  k8s_auto_enable : Bool
  malware_auto_enable : Bool
  error : Option String
deriving DecidableEq

/-- `check_org_config` (lines 135-197): tries the audit-account session
first and falls back to the caller's credentials; an empty detector list
sets `error = "No detector found"` (lines 171-174). -/
def check_org_config (env : VEnv) (region : String) (audit_account_id : Option String) :
    CheckOrgResult :=
  let gd_session := session_or_fallback env audit_account_id region
  match env.list_detectors gd_session region with
  | Except.error e => ⟨false, none, false, false, false, some e⟩
  | Except.ok [] => ⟨false, none, false, false, false, some "No detector found"⟩
  | Except.ok (detector_id :: _) =>
      match env.describe_organization_configuration gd_session region detector_id with
      | Except.error e => ⟨false, none, false, false, false, some e⟩
      | Except.ok resp =>
          ⟨true, some ((resp.auto_enable_members).getD "NONE"),
           resp.s3_auto_enable, resp.k8s_auto_enable, resp.malware_auto_enable, none⟩

/-- How one region of the org auto-enable dimension is classified
(verify-guardduty.py lines 381-406). -/
inductive OrgClass
  | ok
  | partialConfig
  | missing
  | err
deriving DecidableEq

/-- How `main` buckets one `check_org_config` result (lines 383-406): the
class, the issue appended (if any) and the warning appended (if any). -/
def org_dim_classify (region : String) (result : CheckOrgResult) :
    OrgClass × Option String × Option String :=
  match result.error with
  | some _ => (OrgClass.err, none, none)
  | none =>
      if result.configured = false then
        (OrgClass.missing, some (region ++ ": Org configuration not found"), none)
      else if result.auto_enable == some "ALL" && result.s3_auto_enable &&
          result.k8s_auto_enable && result.malware_auto_enable then
        (OrgClass.ok, none, none)
      else
        let missing_parts :=
          (if result.auto_enable ≠ some "ALL" then
            ["auto_enable=" ++ (result.auto_enable).getD "None"] else [])
          ++ (if result.s3_auto_enable = false then ["S3"] else [])
          ++ (if result.k8s_auto_enable = false then ["K8s"] else [])
          ++ (if result.malware_auto_enable = false then ["Malware"] else [])
        (OrgClass.partialConfig, none,
          some (region ++ ": Partial config - missing: " ++ joinComma missing_parts))

/-- One iteration of the org auto-enable loop of `main` (lines 381-406). -/
def org_dim_step (env : VEnv) (audit_account_id region : String) :
    OrgClass × Option String × Option String :=
  org_dim_classify region (check_org_config env region (some audit_account_id))

/-- The tallies of the org auto-enable dimension (lines 376-406). -/
structure OrgDim where
  org_ok : Nat
  org_partialCount : Nat
  org_missing : Nat
  org_errors : Nat
  issues : List String
  warnings : List String
deriving DecidableEq

/-- The org auto-enable sweep over `ALL_REGIONS` (lines 381-406). -/
def org_dimension (env : VEnv) (audit_account_id : String) : OrgDim :=
  let results := ALL_REGIONS.map (fun r => org_dim_step env audit_account_id r)
  { org_ok := (results.filter (fun p => decide (p.1 = OrgClass.ok))).length,
    org_partialCount := (results.filter (fun p => decide (p.1 = OrgClass.partialConfig))).length,
    org_missing := (results.filter (fun p => decide (p.1 = OrgClass.missing))).length,
    org_errors := (results.filter (fun p => decide (p.1 = OrgClass.err))).length,
    issues := results.filterMap (fun p => p.2.1),
    warnings := results.filterMap (fun p => p.2.2) }

end Verify

/-! ## Concrete fixtures used by witnesses and counterexamples -/

/-- A tfvars file with both account IDs, as discovery writes it. -/
def sample_tfvars : StateSync.TfVarsJson :=
  ⟨some "111111111111", some "222222222222", some "gd", some "portfolio-aws-org-guardduty"⟩

/-- An environment where every call succeeds and every resource exists. -/
def happyEnv : StateSync.CloudEnv :=
  { state_list_exec := StateSync.TfExec.completed 0 "",
    warm_up_exec := StateSync.TfExec.completed 0 "No changes.",
    assume_role_ok := fun _ _ => true,
    list_organization_admin_accounts := fun _ => Except.ok ["222222222222"],
    list_detectors := fun _ _ => Except.ok ["det01"],
    list_publishing_destinations := fun _ _ _ => Except.ok [⟨some "S3", "dest01"⟩],
    terraform_import_exec := fun _ _ _ => StateSync.TfExec.completed 0 "Import successful!" }

/-! ## C3: the import retry bound -/

lemma import_resource_loop_succ (runs : Nat → Bool × String) (n a : Nat) :
    StateSync.import_resource_loop runs (Nat.succ n) a =
      (StateSync.attempt_result_ok (runs a) ||
        StateSync.import_resource_loop runs n (a + 1)) := by
  cases h1 : (runs a).1 <;>
    cases h2 : strContainsSub (runs a).2 "Resource already managed" <;>
      simp [StateSync.import_resource_loop, StateSync.attempt_result_ok, h1, h2]

lemma import_resource_eq (runs : Nat → Bool × String) :
    StateSync.import_resource runs =
      (StateSync.attempt_result_ok (runs 1) || StateSync.attempt_result_ok (runs 2)) := by
  show StateSync.import_resource_loop runs (Nat.succ (Nat.succ 0)) 1 = _
  rw [import_resource_loop_succ, import_resource_loop_succ]
  simp [StateSync.import_resource_loop]

/-- C3: `import_resource` reports success if and only if one of its at most
`IMPORT_RETRIES = 2` attempts succeeds or reports the address as already
managed; a transient failure followed by a success (or by an
already-managed response) on the second attempt is success, and two
genuine failures are failure. -/
theorem claim3_import_retry (runs : Nat → Bool × String) :
    StateSync.IMPORT_RETRIES = 2 ∧
    (StateSync.import_resource runs = true ↔
      (StateSync.attempt_result_ok (runs 1) = true ∨
        StateSync.attempt_result_ok (runs 2) = true)) ∧
    ((runs 1).1 = false → strContainsSub (runs 1).2 "Resource already managed" = false →
      (runs 2).1 = true → StateSync.import_resource runs = true) ∧
    (strContainsSub (runs 1).2 "Resource already managed" = true →
      StateSync.import_resource runs = true) ∧
    ((runs 1).1 = false → strContainsSub (runs 1).2 "Resource already managed" = false →
      strContainsSub (runs 2).2 "Resource already managed" = true →
      StateSync.import_resource runs = true) ∧
    (StateSync.attempt_result_ok (runs 1) = false →
      StateSync.attempt_result_ok (runs 2) = false →
      StateSync.import_resource runs = false) := by
  have he := import_resource_eq runs
  refine ⟨rfl, ?_, ?_, ?_, ?_, ?_⟩ <;>
    simp_all [StateSync.attempt_result_ok]

/-- The import attempts of a target that fails transiently once and then
succeeds. -/
def c3_runs : Nat → Bool × String :=
  fun attempt => if attempt = 1 then (false, "Error: connection reset by peer") else (true, "Import successful!")

theorem claim3_import_retry_witness :
    (c3_runs 1).1 = false ∧
    strContainsSub (c3_runs 1).2 "Resource already managed" = false ∧
    (c3_runs 2).1 = true ∧
    StateSync.import_resource c3_runs = true :=
  ⟨by decide, by decide, by decide,
    (claim3_import_retry c3_runs).2.2.1 (by decide) (by decide) (by decide)⟩

/-! ## C1: the merge precedence between the shared store and config.yaml -/

/-- A config.yaml that sets every overridable field. -/
def c1_config : Discover.ConfigYaml :=
  ⟨some "gd", some "eu-west-1", some "111111111111", some [("Team", "SecOps")], none⟩

/-- A shared-store value that conflicts with `c1_config` on every field. -/
def c1_ssm : Discover.SsmConfig :=
  ⟨some "us-east-2", some "999999999999", some "333333333333", some "o-abc123",
   some [("Team", "Platform")]⟩

/-- C1 counterexample: with a shared-store value and a conflicting operator
value present for `primary_region` and `audit_account_id`, the merge of
discover.py lines 174-175 yields the operator-config value, not the
shared-store value the claim requires. -/
theorem claim1_counterexample :
    c1_ssm.primary_region = some "us-east-2" ∧
    c1_config.primary_region = some "eu-west-1" ∧
    Discover.merge_primary_region c1_config c1_ssm = "eu-west-1" ∧
    Discover.merge_primary_region c1_config c1_ssm ≠ "us-east-2" ∧
    c1_ssm.audit_account_id = some "999999999999" ∧
    c1_config.audit_account_id = some "111111111111" ∧
    Discover.merge_audit_account_id c1_config c1_ssm = "111111111111" ∧
    Discover.merge_audit_account_id c1_config c1_ssm ≠ "999999999999" := by
  decide

/-- C1 (amended): the shared-store value wins only for `tags`; for
`primary_region` and `audit_account_id` the operator-config value wins
whenever it is present and non-empty, the shared-store value is only a
fallback; when both sides are absent the documented defaults apply
(`us-east-1`, empty); an unreachable or missing shared store behaves as
the empty shared config. -/
theorem claim1_merge_precedence (config : Discover.ConfigYaml) (ssm_config : Discover.SsmConfig) :
    (∀ t, ssm_config.tags = some t → Discover.merge_custom_tags config ssm_config = t) ∧
    (ssm_config.tags = none →
      Discover.merge_custom_tags config ssm_config = (config.tags).getD []) ∧
    (∀ s, config.primary_region = some s → s ≠ "" →
      Discover.merge_primary_region config ssm_config = s) ∧
    ((config.primary_region = none ∨ config.primary_region = some "") →
      ∀ v, ssm_config.primary_region = some v →
        Discover.merge_primary_region config ssm_config = v) ∧
    ((config.primary_region = none ∨ config.primary_region = some "") →
      ssm_config.primary_region = none →
      Discover.merge_primary_region config ssm_config = "us-east-1") ∧
    (∀ s, config.audit_account_id = some s → s ≠ "" →
      Discover.merge_audit_account_id config ssm_config = s) ∧
    ((config.audit_account_id = none ∨ config.audit_account_id = some "") →
      ∀ v, ssm_config.audit_account_id = some v →
        Discover.merge_audit_account_id config ssm_config = v) ∧
    ((config.audit_account_id = none ∨ config.audit_account_id = some "") →
      ssm_config.audit_account_id = none →
      Discover.merge_audit_account_id config ssm_config = "") ∧
    (∀ code, Discover.ssm_fetch_result (Discover.SsmFetch.errorCode code) =
      Discover.empty_ssm_config) ∧
    (Discover.ssm_fetch_result Discover.SsmFetch.notFound = Discover.empty_ssm_config) := by
  refine ⟨?_, ?_, ?_, ?_, ?_, ?_, ?_, ?_, ?_, ?_⟩
  · intro t ht
    simp [Discover.merge_custom_tags, ht]
  · intro ht
    simp [Discover.merge_custom_tags, ht]
  · intro s hs hne
    simp [Discover.merge_primary_region, py_or_str, hs, hne]
  · rintro (hc | hc) v hv <;> simp [Discover.merge_primary_region, py_or_str, hc, hv]
  · rintro (hc | hc) hv <;> simp [Discover.merge_primary_region, py_or_str, hc, hv]
  · intro s hs hne
    simp [Discover.merge_audit_account_id, py_or_str, hs, hne]
  · rintro (hc | hc) v hv <;> simp [Discover.merge_audit_account_id, py_or_str, hc, hv]
  · rintro (hc | hc) hv <;> simp [Discover.merge_audit_account_id, py_or_str, hc, hv]
  · intro code
    rfl
  · rfl

theorem claim1_merge_precedence_witness :
    Discover.merge_custom_tags c1_config c1_ssm = [("Team", "Platform")] ∧
    Discover.merge_primary_region c1_config c1_ssm = "eu-west-1" ∧
    Discover.merge_audit_account_id ⟨some "gd", none, none, none, none⟩ c1_ssm =
      "999999999999" ∧
    Discover.merge_primary_region ⟨some "gd", none, none, none, none⟩
      Discover.empty_ssm_config = "us-east-1" :=
  ⟨(claim1_merge_precedence c1_config c1_ssm).1 [("Team", "Platform")] rfl,
   (claim1_merge_precedence c1_config c1_ssm).2.2.1 "eu-west-1" rfl (by decide),
   (claim1_merge_precedence ⟨some "gd", none, none, none, none⟩ c1_ssm).2.2.2.2.2.2.1
     (Or.inl rfl) "999999999999" rfl,
   (claim1_merge_precedence ⟨some "gd", none, none, none, none⟩
     Discover.empty_ssm_config).2.2.2.2.1 (Or.inl rfl) rfl⟩

/-! ## C8: fatal configuration errors abort before any probing -/

/-- C8: a missing `resource_prefix` in config.yaml, or an
`audit_account_id` absent from both config.yaml and the shared store,
makes the discovery run return exit code 1 with no probe event issued,
and its fatal message names the missing prerequisite and the upstream
source expected to supply it. -/
theorem claim8_fatal_config (config : Discover.ConfigYaml) (env : Discover.DiscoverEnv) :
    ((config.resource_prefix = none ∨ config.resource_prefix = some "") →
      (Discover.discover_main config env).exit_code = 1 ∧
      (Discover.discover_main config env).probe_events = [] ∧
      ∃ m ∈ (Discover.discover_main config env).fatal_messages,
        strContainsSub m "resource_prefix" = true ∧ strContainsSub m "config.yaml" = true) ∧
    (∀ p, config.resource_prefix = some p → p ≠ "" →
      (config.audit_account_id = none ∨ config.audit_account_id = some "") →
      ((Discover.read_ssm_org_config env p
          ((config.primary_region).getD "us-east-1")).audit_account_id = none ∨
        (Discover.read_ssm_org_config env p
          ((config.primary_region).getD "us-east-1")).audit_account_id = some "") →
      (Discover.discover_main config env).exit_code = 1 ∧
      (Discover.discover_main config env).probe_events = [] ∧
      (∃ m ∈ (Discover.discover_main config env).fatal_messages,
        strContainsSub m "audit_account_id" = true) ∧
      (∃ m ∈ (Discover.discover_main config env).fatal_messages,
        strContainsSub m "portfolio-aws-org-baseline" = true)) := by
  constructor
  · intro hc
    have hpfx : (config.resource_prefix).getD "" = "" := by
      rcases hc with hc | hc <;> simp [hc]
    refine ⟨by simp [Discover.discover_main, hpfx],
      by simp [Discover.discover_main, hpfx], ?_⟩
    refine ⟨"Error: resource_prefix is required in config.yaml", ?_, by decide, by decide⟩
    simp [Discover.discover_main, hpfx]
  · intro p hp hpne hca hsa
    have hpfx : (config.resource_prefix).getD "" = p := by simp [hp]
    have hmerge : Discover.merge_audit_account_id config
        (Discover.read_ssm_org_config env p ((config.primary_region).getD "us-east-1")) = "" := by
      unfold Discover.merge_audit_account_id py_or_str
      rcases hca with hca | hca <;> rcases hsa with hsa | hsa <;> simp [hca, hsa]
    refine ⟨by simp [Discover.discover_main, hpfx, hpne, hmerge],
      by simp [Discover.discover_main, hpfx, hpne, hmerge], ?_, ?_⟩
    · refine ⟨"ERROR: audit_account_id not available", ?_, by decide⟩
      simp [Discover.discover_main, hpfx, hpne, hmerge]
    · refine ⟨"This project requires portfolio-aws-org-baseline to be deployed first.", ?_,
        by decide⟩
      simp [Discover.discover_main, hpfx, hpne, hmerge]

/-- A config.yaml with a resource prefix but no audit account. -/
def c8_config : Discover.ConfigYaml := ⟨some "gd", some "us-east-1", none, none, none⟩

/-- A discovery environment whose shared store has no parameter. -/
def c8_env : Discover.DiscoverEnv :=
  { caller_account := "111111111111",
    ssm_fetch := fun _ _ => Discover.SsmFetch.notFound,
    list_delegated_administrators := fun _ => Except.ok ["222222222222"],
    assume_role_ok := fun _ _ => true,
    list_detectors := fun _ _ => Except.ok ["det01"],
    describe_org_config := fun _ _ _ => Except.ok ⟨false, some "ALL", true, true, true⟩ }

theorem claim8_fatal_config_witness :
    (Discover.discover_main c8_config c8_env).exit_code = 1 ∧
    (Discover.discover_main c8_config c8_env).probe_events = [] ∧
    (Discover.discover_main ⟨none, none, none, none, none⟩ c8_env).exit_code = 1 :=
  ⟨((claim8_fatal_config c8_config c8_env).2 "gd" rfl (by decide) (Or.inl rfl) (Or.inl rfl)).1,
   ((claim8_fatal_config c8_config c8_env).2 "gd" rfl (by decide) (Or.inl rfl) (Or.inl rfl)).2.1,
   ((claim8_fatal_config ⟨none, none, none, none, none⟩ c8_env).1 (Or.inl rfl)).1⟩

/-! ## C5: the org auto-enable classification of the Verifier -/

lemma check_org_config_error_none_configured (env : Verify.VEnv) (r : String)
    (aid : Option String) :
    (Verify.check_org_config env r aid).error = none →
    (Verify.check_org_config env r aid).configured = true := by
  cases hd : env.list_detectors (Verify.session_or_fallback env aid r) r with
  | error e => simp [Verify.check_org_config, hd]
  | ok ds =>
      cases ds with
      | nil => simp [Verify.check_org_config, hd]
      | cons d rest =>
          cases hc : env.describe_organization_configuration
              (Verify.session_or_fallback env aid r) r d with
          | error e => simp [Verify.check_org_config, hd, hc]
          | ok resp => simp [Verify.check_org_config, hd, hc]

/-- C5 counterexample: in a region whose org configuration is entirely
absent (no detector exists), `check_org_config` reports the error
`"No detector found"`, so `main` counts the region in the error tally
and appends no issue — not in the missing tally with an issue, as the
claim states. -/
def vEnvNoDetector : Verify.VEnv :=
  { assume_role_ok := fun _ _ => true,
    list_detectors := fun _ _ => Except.ok [],
    get_detector := fun _ _ _ => Except.error "unused",
    describe_organization_configuration := fun _ _ _ => Except.error "unused" }

theorem claim5_counterexample :
    (Verify.check_org_config vEnvNoDetector "us-east-1" (some "222222222222")).configured =
      false ∧
    (Verify.check_org_config vEnvNoDetector "us-east-1" (some "222222222222")).error =
      some "No detector found" ∧
    Verify.org_dim_step vEnvNoDetector "222222222222" "us-east-1" =
      (Verify.OrgClass.err, none, none) ∧
    (Verify.org_dim_step vEnvNoDetector "222222222222" "us-east-1").1 ≠
      Verify.OrgClass.missing ∧
    (Verify.org_dimension vEnvNoDetector "222222222222").org_missing = 0 ∧
    (Verify.org_dimension vEnvNoDetector "222222222222").org_errors = 17 ∧
    (Verify.org_dimension vEnvNoDetector "222222222222").issues = [] := by
  decide

/-- C5 (amended): a region whose configuration exists with only some of
the four sub-features enabled is classified partial — a warning is
appended, no issue; a region whose check returns an API error increments
only the error tally with neither issue nor warning; but a region whose
configuration is entirely absent (no detector) is also counted as an
error (`"No detector found"`), not as missing: the missing/issue branch
is unreachable because `check_org_config` never returns an
unconfigured result without an error. -/
theorem claim5_org_autoenable_classification (env : Verify.VEnv) (audit r : String) :
    ((Verify.check_org_config env r (some audit)).error = none →
      (Verify.check_org_config env r (some audit)).configured = true) ∧
    ((Verify.check_org_config env r (some audit)).error = none →
      ¬((Verify.check_org_config env r (some audit)).auto_enable = some "ALL" ∧
        (Verify.check_org_config env r (some audit)).s3_auto_enable = true ∧
        (Verify.check_org_config env r (some audit)).k8s_auto_enable = true ∧
        (Verify.check_org_config env r (some audit)).malware_auto_enable = true) →
      (Verify.org_dim_step env audit r).1 = Verify.OrgClass.partialConfig ∧
      (Verify.org_dim_step env audit r).2.1 = none ∧
      ∃ w, (Verify.org_dim_step env audit r).2.2 = some w) ∧
    ((Verify.check_org_config env r (some audit)).error = none →
      (Verify.check_org_config env r (some audit)).auto_enable = some "ALL" →
      (Verify.check_org_config env r (some audit)).s3_auto_enable = true →
      (Verify.check_org_config env r (some audit)).k8s_auto_enable = true →
      (Verify.check_org_config env r (some audit)).malware_auto_enable = true →
      Verify.org_dim_step env audit r = (Verify.OrgClass.ok, none, none)) ∧
    (∀ e, (Verify.check_org_config env r (some audit)).error = some e →
      Verify.org_dim_step env audit r = (Verify.OrgClass.err, none, none)) ∧
    (env.list_detectors (Verify.session_or_fallback env (some audit) r) r = Except.ok [] →
      Verify.check_org_config env r (some audit) =
        ⟨false, none, false, false, false, some "No detector found"⟩ ∧
      Verify.org_dim_step env audit r = (Verify.OrgClass.err, none, none)) := by
  have hconf := check_org_config_error_none_configured env r (some audit)
  refine ⟨hconf, ?_, ?_, ?_, ?_⟩
  · intro herr hfull
    have hc := hconf herr
    rcases hres : Verify.check_org_config env r (some audit) with ⟨conf, ae, s3, k8, mw, err⟩
    rw [hres] at herr hc hfull
    simp only at herr hc hfull
    subst herr hc
    by_cases hae : ae = some "ALL" <;> cases s3 <;> cases k8 <;> cases mw <;>
      simp_all [Verify.org_dim_step, Verify.org_dim_classify, hres]
  · intro herr hae hs3 hk8 hmw
    have hc := hconf herr
    rcases hres : Verify.check_org_config env r (some audit) with ⟨conf, ae, s3, k8, mw, err⟩
    rw [hres] at herr hc hae hs3 hk8 hmw
    simp only at herr hc hae hs3 hk8 hmw
    subst herr hc hae hs3 hk8 hmw
    simp [Verify.org_dim_step, Verify.org_dim_classify, hres]
  · intro e herr
    rcases hres : Verify.check_org_config env r (some audit) with ⟨conf, ae, s3, k8, mw, err⟩
    rw [hres] at herr
    simp only at herr
    subst herr
    simp [Verify.org_dim_step, Verify.org_dim_classify, hres]
  · intro hempty
    have hcheck : Verify.check_org_config env r (some audit) =
        ⟨false, none, false, false, false, some "No detector found"⟩ := by
      simp [Verify.check_org_config, hempty]
    exact ⟨hcheck, by simp [Verify.org_dim_step, Verify.org_dim_classify, hcheck]⟩

/-- An environment whose org configuration has three of the four
sub-features enabled (malware auto-enable off). -/
def vEnvPartial : Verify.VEnv :=
  { assume_role_ok := fun _ _ => true,
    list_detectors := fun _ _ => Except.ok ["det01"],
    get_detector := fun _ _ _ =>
      Except.ok ⟨some "ENABLED", some "ENABLED", some "ENABLED", some "ENABLED"⟩,
    describe_organization_configuration := fun _ _ _ => Except.ok ⟨some "ALL", true, true, false⟩ }

/-- An environment whose GuardDuty API rejects every call. -/
def vEnvApiError : Verify.VEnv :=
  { assume_role_ok := fun _ _ => true,
    list_detectors := fun _ _ => Except.error "An error occurred (AccessDeniedException)",
    get_detector := fun _ _ _ => Except.error "An error occurred (AccessDeniedException)",
    describe_organization_configuration := fun _ _ _ =>
      Except.error "An error occurred (AccessDeniedException)" }

theorem claim5_org_autoenable_classification_witness :
    (Verify.org_dim_step vEnvPartial "222222222222" "us-east-1").1 =
      Verify.OrgClass.partialConfig ∧
    Verify.org_dim_step vEnvApiError "222222222222" "us-east-1" =
      (Verify.OrgClass.err, none, none) ∧
    Verify.org_dim_step vEnvNoDetector "222222222222" "us-east-1" =
      (Verify.OrgClass.err, none, none) :=
  ⟨((claim5_org_autoenable_classification vEnvPartial "222222222222" "us-east-1").2.1
      (by decide) (by decide)).1,
   (claim5_org_autoenable_classification vEnvApiError "222222222222" "us-east-1").2.2.2.1
      "An error occurred (AccessDeniedException)" (by decide),
   ((claim5_org_autoenable_classification vEnvNoDetector "222222222222" "us-east-1").2.2.2.2
      rfl).2⟩

/-! ## C4: per-target failures are tallied and never halt the sweep -/

lemma dim_tally_partition (l : List (Verify.DimTally × Option String)) :
    (l.filter (fun p => decide (p.1 = Verify.DimTally.ok))).length +
      (l.filter (fun p => decide (p.1 = Verify.DimTally.missing))).length +
      (l.filter (fun p => decide (p.1 = Verify.DimTally.err))).length = l.length := by
  induction l with
  | nil => simp
  | cons hd tl ih =>
      cases h2 : hd.1 <;> simp [List.filter_cons, h2] <;> omega

lemma sync_counts_partition {α : Type} (r : StateSync.SyncResult α) :
    StateSync.skipped_count r + StateSync.imported_count r + StateSync.failed_count r +
      StateSync.not_applicable_count r = r.outcomes.length := by
  rcases r with ⟨l, evs⟩
  simp only [StateSync.skipped_count, StateSync.imported_count, StateSync.failed_count,
    StateSync.not_applicable_count, StateSync.count_outcome]
  induction l with
  | nil => simp
  | cons hd tl ih =>
      cases h2 : hd.2 <;> simp [List.filter_cons, h2] <;> omega

lemma detector_targets_length (audit : String) :
    (StateSync.detector_targets audit).length = 2 * StateSync.ALL_REGIONS.length := rfl

/-- The Verifier cannot reach the audit account: `assume_role` fails in
every region, while the caller's own credentials see an enabled
detector. -/
def vEnvSessionLoss : Verify.VEnv :=
  { assume_role_ok := fun _ _ => false,
    list_detectors := fun _ _ => Except.ok ["det01"],
    get_detector := fun _ _ _ =>
      Except.ok ⟨some "ENABLED", some "ENABLED", some "ENABLED", some "ENABLED"⟩,
    describe_organization_configuration := fun _ _ _ => Except.ok ⟨some "ALL", true, true, true⟩ }

/-- C4 counterexample: a session-acquisition failure at a Verifier
detector target is not recorded in the per-dimension error tally — the
check falls back to the caller's credentials, the fallback probe
succeeds, and the region is counted OK. -/
theorem claim4_counterexample :
    vEnvSessionLoss.assume_role_ok "222222222222" "us-east-1" = false ∧
    (Verify.detector_dimension vEnvSessionLoss (some "222222222222") "Audit").det_errors = 0 ∧
    (Verify.detector_dimension vEnvSessionLoss (some "222222222222") "Audit").det_ok = 17 ∧
    (Verify.detector_dimension vEnvSessionLoss (some "222222222222") "Audit").issues = [] := by
  decide

/-- C4 (amended): in the Reconciler every per-target failure — session
acquisition, probe error, import failure after exhausting retries — is
recorded in the per-category failed tally, and every sweep still
produces an outcome for every target; in the Verifier a probe API error
is recorded in the per-dimension error tally and every region is still
processed, but a session-acquisition failure is not tallied: the check
falls back to the caller's own credentials. -/
theorem claim4_per_target_failures (env : StateSync.CloudEnv) (venv : Verify.VEnv)
    (tfvars : Option StateSync.TfVarsJson) (state : List String)
    (p region account_name a : String) (aid : Option String) :
    (StateSync.resource_exists_in_state (StateSync.detector_address p region) state = false →
      env.assume_role_ok a region = false →
      StateSync.detector_step env state p (some a) region =
        (StateSync.Outcome.failedSession, [Event.sessionCall a region])) ∧
    (∀ msg, StateSync.resource_exists_in_state (StateSync.detector_address p region) state = false →
      env.list_detectors none region = Except.error msg →
      (StateSync.detector_step env state p none region).1 = StateSync.Outcome.failedProbe) ∧
    (∀ d ds, StateSync.resource_exists_in_state (StateSync.detector_address p region) state = false →
      env.list_detectors none region = Except.ok (d :: ds) →
      StateSync.import_resource
        (StateSync.import_runs env (StateSync.detector_address p region) d) = false →
      (StateSync.detector_step env state p none region).1 = StateSync.Outcome.failedImport) ∧
    ((StateSync.sync_guardduty_detectors env tfvars state).outcomes.length =
      if (StateSync.get_account_ids_from_tfvars tfvars).audit = "" then 0
      else 2 * StateSync.ALL_REGIONS.length) ∧
    ((StateSync.sync_guardduty_org_admin env tfvars state).outcomes.length =
      if (StateSync.get_account_ids_from_tfvars tfvars).audit = "" then 0
      else StateSync.ALL_REGIONS.length) ∧
    ((StateSync.sync_guardduty_publishing_destinations env tfvars state).outcomes.length =
      if (StateSync.get_account_ids_from_tfvars tfvars).audit = "" then 0
      else StateSync.ALL_REGIONS.length) ∧
    (∀ e, (Verify.check_detector venv (Verify.session_or_fallback venv aid region) region).error =
        some e →
      Verify.detector_dim_step venv aid account_name region = (Verify.DimTally.err, none)) ∧
    ((Verify.detector_dimension venv aid account_name).det_ok +
      (Verify.detector_dimension venv aid account_name).det_missing +
      (Verify.detector_dimension venv aid account_name).det_errors =
        Verify.ALL_REGIONS.length) ∧
    (venv.assume_role_ok a region = false →
      Verify.detector_dim_step venv (some a) account_name region =
        Verify.detector_dim_step venv none account_name region) := by
  refine ⟨?_, ?_, ?_, ?_, ?_, ?_, ?_, ?_, ?_⟩
  · intro hna hrole
    simp [StateSync.detector_step, hna, hrole]
  · intro msg hna herr
    simp [StateSync.detector_step, hna, StateSync.detector_probe, herr]
  · intro d ds hna hok himp
    simp [StateSync.detector_step, hna, StateSync.detector_probe, hok, himp]
  · by_cases ha : (StateSync.get_account_ids_from_tfvars tfvars).audit = "" <;>
      simp [StateSync.sync_guardduty_detectors, ha, StateSync.sweep, detector_targets_length]
  · by_cases ha : (StateSync.get_account_ids_from_tfvars tfvars).audit = "" <;>
      simp [StateSync.sync_guardduty_org_admin, ha, StateSync.sweep]
  · by_cases ha : (StateSync.get_account_ids_from_tfvars tfvars).audit = "" <;>
      simp [StateSync.sync_guardduty_publishing_destinations, ha, StateSync.sweep]
  · intro e herr
    simp [Verify.detector_dim_step, Verify.detector_dim_classify, herr]
  · have hp := dim_tally_partition
      (Verify.ALL_REGIONS.map (fun r => Verify.detector_dim_step venv aid account_name r))
    simpa [Verify.detector_dimension] using hp
  · intro hrole
    simp [Verify.detector_dim_step, Verify.session_or_fallback, hrole]

/-- The state-sync run where every cross-account session acquisition
fails. -/
def sessionFailEnv : StateSync.CloudEnv :=
  { happyEnv with assume_role_ok := fun _ _ => false }

/-- The state-sync run where every detector probe raises. -/
def probeErrEnv : StateSync.CloudEnv :=
  { happyEnv with list_detectors := fun _ _ => Except.error "An error occurred (AccessDenied)" }

/-- The state-sync run where every `terraform import` attempt fails. -/
def importFailEnv : StateSync.CloudEnv :=
  { happyEnv with terraform_import_exec := fun _ _ _ => StateSync.TfExec.raised "exec failed" }

theorem claim4_per_target_failures_witness :
    StateSync.detector_step sessionFailEnv [] "audit" (some "222222222222") "us-east-1" =
      (StateSync.Outcome.failedSession, [Event.sessionCall "222222222222" "us-east-1"]) ∧
    (StateSync.detector_step probeErrEnv [] "mgmt" none "us-east-1").1 =
      StateSync.Outcome.failedProbe ∧
    (StateSync.detector_step importFailEnv [] "mgmt" none "us-east-1").1 =
      StateSync.Outcome.failedImport ∧
    Verify.detector_dim_step vEnvApiError (some "222222222222") "Audit" "us-east-1" =
      (Verify.DimTally.err, none) ∧
    Verify.detector_dim_step vEnvSessionLoss (some "222222222222") "Audit" "us-east-1" =
      Verify.detector_dim_step vEnvSessionLoss none "Audit" "us-east-1" :=
  ⟨(claim4_per_target_failures sessionFailEnv vEnvApiError (some sample_tfvars) []
      "audit" "us-east-1" "Audit" "222222222222" none).1 (by decide) rfl,
   (claim4_per_target_failures probeErrEnv vEnvApiError (some sample_tfvars) []
      "mgmt" "us-east-1" "Audit" "222222222222" none).2.1
      "An error occurred (AccessDenied)" (by decide) rfl,
   (claim4_per_target_failures importFailEnv vEnvApiError (some sample_tfvars) []
      "mgmt" "us-east-1" "Audit" "222222222222" none).2.2.1
      "det01" [] (by decide) rfl (by decide),
   (claim4_per_target_failures happyEnv vEnvApiError (some sample_tfvars) []
      "mgmt" "us-east-1" "Audit" "222222222222" (some "222222222222")).2.2.2.2.2.2.1
      "An error occurred (AccessDeniedException)" rfl,
   (claim4_per_target_failures happyEnv vEnvSessionLoss (some sample_tfvars) []
      "mgmt" "us-east-1" "Audit" "222222222222" (some "222222222222")).2.2.2.2.2.2.2.2
      rfl⟩

/-! ## C6: matrix completeness of the Reconciler -/

/-- C6: for every applicable target of each category, the Reconciler
produces exactly one outcome — the outcome list enumerates the target
matrix itself — and the per-category counters (already-tracked,
imported, failed, not-applicable) sum to the number of targets, so no
combination is dropped. -/
theorem claim6_matrix_completeness (env : StateSync.CloudEnv)
    (tfvars : Option StateSync.TfVarsJson) (state : List String)
    (h : (StateSync.get_account_ids_from_tfvars tfvars).audit ≠ "") :
    ((StateSync.sync_guardduty_org_admin env tfvars state).outcomes.map Prod.fst =
      StateSync.ALL_REGIONS) ∧
    ((StateSync.sync_guardduty_detectors env tfvars state).outcomes.map Prod.fst =
      StateSync.detector_targets (StateSync.get_account_ids_from_tfvars tfvars).audit) ∧
    ((StateSync.sync_guardduty_publishing_destinations env tfvars state).outcomes.map Prod.fst =
      StateSync.ALL_REGIONS) ∧
    (StateSync.skipped_count (StateSync.sync_guardduty_org_admin env tfvars state) +
      StateSync.imported_count (StateSync.sync_guardduty_org_admin env tfvars state) +
      StateSync.failed_count (StateSync.sync_guardduty_org_admin env tfvars state) +
      StateSync.not_applicable_count (StateSync.sync_guardduty_org_admin env tfvars state) =
      StateSync.ALL_REGIONS.length) ∧
    (StateSync.skipped_count (StateSync.sync_guardduty_detectors env tfvars state) +
      StateSync.imported_count (StateSync.sync_guardduty_detectors env tfvars state) +
      StateSync.failed_count (StateSync.sync_guardduty_detectors env tfvars state) +
      StateSync.not_applicable_count (StateSync.sync_guardduty_detectors env tfvars state) =
      2 * StateSync.ALL_REGIONS.length) ∧
    (StateSync.skipped_count (StateSync.sync_guardduty_publishing_destinations env tfvars state) +
      StateSync.imported_count (StateSync.sync_guardduty_publishing_destinations env tfvars state) +
      StateSync.failed_count (StateSync.sync_guardduty_publishing_destinations env tfvars state) +
      StateSync.not_applicable_count
        (StateSync.sync_guardduty_publishing_destinations env tfvars state) =
      StateSync.ALL_REGIONS.length) := by
  refine ⟨?_, ?_, ?_, ?_, ?_, ?_⟩
  · simp [StateSync.sync_guardduty_org_admin, h, StateSync.sweep, List.map_map,
      Function.comp_def]
  · simp [StateSync.sync_guardduty_detectors, h, StateSync.sweep, List.map_map,
      Function.comp_def]
  · simp [StateSync.sync_guardduty_publishing_destinations, h, StateSync.sweep, List.map_map,
      Function.comp_def]
  · rw [sync_counts_partition]
    simp [StateSync.sync_guardduty_org_admin, h, StateSync.sweep]
  · rw [sync_counts_partition]
    simp [StateSync.sync_guardduty_detectors, h, StateSync.sweep, detector_targets_length]
  · rw [sync_counts_partition]
    simp [StateSync.sync_guardduty_publishing_destinations, h, StateSync.sweep]

theorem claim6_matrix_completeness_witness :
    (StateSync.sync_guardduty_org_admin happyEnv (some sample_tfvars) []).outcomes.map Prod.fst =
      StateSync.ALL_REGIONS ∧
    StateSync.skipped_count (StateSync.sync_guardduty_detectors happyEnv (some sample_tfvars) []) +
      StateSync.imported_count (StateSync.sync_guardduty_detectors happyEnv (some sample_tfvars) []) +
      StateSync.failed_count (StateSync.sync_guardduty_detectors happyEnv (some sample_tfvars) []) +
      StateSync.not_applicable_count
        (StateSync.sync_guardduty_detectors happyEnv (some sample_tfvars) []) =
      2 * StateSync.ALL_REGIONS.length :=
  ⟨(claim6_matrix_completeness happyEnv (some sample_tfvars) [] (by decide)).1,
   (claim6_matrix_completeness happyEnv (some sample_tfvars) [] (by decide)).2.2.2.2.1⟩

/-! ## Event-trace lemmas: what each sync step can emit -/

lemma sweep_events_mem {α : Type} (ts : List α) (f : α → StateSync.Outcome × List Event)
    (e : Event) (h : e ∈ (StateSync.sweep ts f).events) : ∃ t ∈ ts, e ∈ (f t).2 := by
  simpa [StateSync.sweep] using h

lemma org_admin_step_import (env : StateSync.CloudEnv) (audit : String)
    (state : List String) (r a rid : String)
    (hm : Event.importCall a rid ∈ (StateSync.org_admin_step env audit state r).2) :
    a = StateSync.org_admin_address r ∧ StateSync.resource_exists_in_state a state = false := by
  by_cases hc : StateSync.resource_exists_in_state (StateSync.org_admin_address r) state = true
  · simp [StateSync.org_admin_step, hc] at hm
  · simp only [Bool.not_eq_true] at hc
    cases hld : env.list_organization_admin_accounts r with
    | error msg => simp [StateSync.org_admin_step, hc, hld] at hm
    | ok admins =>
        by_cases hca : audit ∈ admins
        · by_cases him : StateSync.import_resource
              (StateSync.import_runs env (StateSync.org_admin_address r) audit) = true
          · simp [StateSync.org_admin_step, hc, hld, hca, him] at hm
            exact ⟨hm.1, hm.1 ▸ hc⟩
          · simp only [Bool.not_eq_true] at him
            simp [StateSync.org_admin_step, hc, hld, hca, him] at hm
            exact ⟨hm.1, hm.1 ▸ hc⟩
        · simp [StateSync.org_admin_step, hc, hld, hca] at hm

lemma detector_probe_import (env : StateSync.CloudEnv) (tf_address : String)
    (session : Option String) (region : String) (pre : List Event) (a rid : String)
    (hpre : Event.importCall a rid ∉ pre)
    (hm : Event.importCall a rid ∈ (StateSync.detector_probe env tf_address session region pre).2) :
    a = tf_address := by
  cases hld : env.list_detectors session region with
  | error msg => simp [StateSync.detector_probe, hld, hpre] at hm
  | ok ds =>
      cases ds with
      | nil => simp [StateSync.detector_probe, hld, hpre] at hm
      | cons d rest =>
          by_cases him : StateSync.import_resource
              (StateSync.import_runs env tf_address d) = true
          · simp [StateSync.detector_probe, hld, hpre, him] at hm
            exact hm.1
          · simp only [Bool.not_eq_true] at him
            simp [StateSync.detector_probe, hld, hpre, him] at hm
            exact hm.1

lemma detector_step_import (env : StateSync.CloudEnv) (state : List String)
    (p : String) (aid : Option String) (r a rid : String)
    (hm : Event.importCall a rid ∈ (StateSync.detector_step env state p aid r).2) :
    a = StateSync.detector_address p r ∧ StateSync.resource_exists_in_state a state = false := by
  by_cases hc : StateSync.resource_exists_in_state (StateSync.detector_address p r) state = true
  · simp [StateSync.detector_step, hc] at hm
  · simp only [Bool.not_eq_true] at hc
    cases aid with
    | none =>
        simp only [StateSync.detector_step, hc, Bool.false_eq_true, if_false] at hm
        have := detector_probe_import env _ _ _ _ a rid (by simp) hm
        exact ⟨this, this ▸ hc⟩
    | some acct =>
        by_cases hrole : env.assume_role_ok acct r = true
        · simp only [StateSync.detector_step, hc, Bool.false_eq_true, if_false, hrole,
            if_true] at hm
          have := detector_probe_import env _ _ _ _ a rid (by simp) hm
          exact ⟨this, this ▸ hc⟩
        · simp only [Bool.not_eq_true] at hrole
          simp [StateSync.detector_step, hc, hrole] at hm

lemma pub_step_import (env : StateSync.CloudEnv) (audit : String) (state : List String)
    (r a rid : String)
    (hm : Event.importCall a rid ∈ (StateSync.pub_step env audit state r).2) :
    a = StateSync.pub_address r ∧ StateSync.resource_exists_in_state a state = false := by
  by_cases hc : StateSync.resource_exists_in_state (StateSync.pub_address r) state = true
  · simp [StateSync.pub_step, hc] at hm
  · simp only [Bool.not_eq_true] at hc
    by_cases hrole : env.assume_role_ok audit r = true
    · cases hld : env.list_detectors (some audit) r with
      | error msg => simp [StateSync.pub_step, hc, hrole, hld] at hm
      | ok ds =>
          cases ds with
          | nil => simp [StateSync.pub_step, hc, hrole, hld] at hm
          | cons d rest =>
              cases hpd : env.list_publishing_destinations audit r d with
              | error msg => simp [StateSync.pub_step, hc, hrole, hld, hpd] at hm
              | ok dests =>
                  cases hf : dests.find? (fun x => x.destination_type == some "S3") with
                  | none => simp [StateSync.pub_step, hc, hrole, hld, hpd, hf] at hm
                  | some dest =>
                      by_cases him : StateSync.import_resource
                          (StateSync.import_runs env (StateSync.pub_address r)
                            (d ++ ":" ++ dest.destination_id)) = true
                      · simp [StateSync.pub_step, hc, hrole, hld, hpd, hf, him] at hm
                        exact ⟨hm.1, hm.1 ▸ hc⟩
                      · simp only [Bool.not_eq_true] at him
                        simp [StateSync.pub_step, hc, hrole, hld, hpd, hf, him] at hm
                        exact ⟨hm.1, hm.1 ▸ hc⟩
    · simp only [Bool.not_eq_true] at hrole
      simp [StateSync.pub_step, hc, hrole] at hm

lemma log_group_import (env : StateSync.CloudEnv) (tfvars : Option StateSync.TfVarsJson)
    (state : List String) (a rid : String)
    (hm : Event.importCall a rid ∈ (StateSync.sync_cloudwatch_log_group env tfvars state).2) :
    a = StateSync.log_group_address ∧ StateSync.resource_exists_in_state a state = false := by
  by_cases hc : StateSync.resource_exists_in_state StateSync.log_group_address state = true
  · simp [StateSync.sync_cloudwatch_log_group, hc] at hm
  · simp only [Bool.not_eq_true] at hc
    cases tfvars with
    | none => simp [StateSync.sync_cloudwatch_log_group, hc] at hm
    | some tv =>
        by_cases hpd : (tv.resource_prefix).getD "" = "" ∨ (tv.deployment_name).getD "" = ""
        · simp [StateSync.sync_cloudwatch_log_group, hc, hpd] at hm
        · by_cases him : StateSync.import_resource
              (StateSync.import_runs env StateSync.log_group_address
                ("/" ++ (tv.resource_prefix).getD "" ++ "/deployments/" ++
                  (tv.deployment_name).getD "")) = true
          · simp [StateSync.sync_cloudwatch_log_group, hc, hpd, him] at hm
            exact ⟨hm.1, hm.1 ▸ hc⟩
          · simp only [Bool.not_eq_true] at him
            simp [StateSync.sync_cloudwatch_log_group, hc, hpd, him] at hm
            exact ⟨hm.1, hm.1 ▸ hc⟩

lemma detector_targets_mem (audit : String) (t : String × Option String × String)
    (ht : t ∈ StateSync.detector_targets audit) :
    (t.1 = "mgmt" ∨ t.1 = "audit") ∧ t.2.2 ∈ StateSync.ALL_REGIONS := by
  simp only [StateSync.detector_targets, List.flatMap_cons, List.flatMap_nil,
    List.append_nil, List.mem_append, List.mem_map] at ht
  rcases ht with ⟨r, hr, rfl⟩ | ⟨r, hr, rfl⟩ <;> exact ⟨by simp, by simpa using hr⟩

/-- Every import call of a run targets one of the four synced categories,
and only an address absent from the state snapshot. -/
lemma state_sync_main_import (env : StateSync.CloudEnv)
    (tfvars : Option StateSync.TfVarsJson) (a rid : String)
    (hm : Event.importCall a rid ∈ (StateSync.state_sync_main env tfvars).trace) :
    (a = StateSync.log_group_address ∨
      (∃ r ∈ StateSync.ALL_REGIONS, a = StateSync.org_admin_address r) ∨
      (∃ r ∈ StateSync.ALL_REGIONS,
        a = StateSync.detector_address "mgmt" r ∨ a = StateSync.detector_address "audit" r) ∨
      (∃ r ∈ StateSync.ALL_REGIONS, a = StateSync.pub_address r)) ∧
    StateSync.resource_exists_in_state a
      (StateSync.get_state_resources env.state_list_exec) = false := by
  simp only [StateSync.state_sync_main, List.mem_append] at hm
  rcases hm with ((((hw | hlg) | hoa) | hdet) | hpub)
  · by_cases h0 : (StateSync.get_state_resources env.state_list_exec).length = 0 <;>
      simp [h0] at hw
  · obtain ⟨ha, hcf⟩ := log_group_import env tfvars _ a rid hlg
    exact ⟨Or.inl ha, hcf⟩
  · rw [StateSync.sync_guardduty_org_admin] at hoa
    split at hoa
    · simp at hoa
    · obtain ⟨t, ht, hmt⟩ := sweep_events_mem _ _ _ hoa
      obtain ⟨ha, hcf⟩ := org_admin_step_import env _ _ t a rid hmt
      exact ⟨Or.inr (Or.inl ⟨t, ht, ha⟩), hcf⟩
  · rw [StateSync.sync_guardduty_detectors] at hdet
    split at hdet
    · simp at hdet
    · obtain ⟨t, ht, hmt⟩ := sweep_events_mem _ _ _ hdet
      obtain ⟨ha, hcf⟩ := detector_step_import env _ t.1 t.2.1 t.2.2 a rid hmt
      obtain ⟨hp, hr⟩ := detector_targets_mem _ t ht
      refine ⟨Or.inr (Or.inr (Or.inl ⟨t.2.2, hr, ?_⟩)), hcf⟩
      rcases hp with hp | hp <;> rw [hp] at ha
      · exact Or.inl ha
      · exact Or.inr ha
  · rw [StateSync.sync_guardduty_publishing_destinations] at hpub
    split at hpub
    · simp at hpub
    · obtain ⟨t, ht, hmt⟩ := sweep_events_mem _ _ _ hpub
      obtain ⟨ha, hcf⟩ := pub_step_import env _ _ t a rid hmt
      exact ⟨Or.inr (Or.inr (Or.inr ⟨t, ht, ha⟩)), hcf⟩

/-! ## C2: state-index precedence -/

/-- C2: a target whose address is in the state snapshot at pass start is
recorded as already tracked with no event emitted — no session
acquisition, no probe, no import — in every category, and no import call
of the whole pass targets an address of the snapshot. -/
theorem claim2_state_index_precedence (env : StateSync.CloudEnv)
    (tfvars : Option StateSync.TfVarsJson) (state : List String)
    (audit p r a rid : String) (aid : Option String) :
    (StateSync.resource_exists_in_state (StateSync.org_admin_address r) state = true →
      StateSync.org_admin_step env audit state r = (StateSync.Outcome.alreadyTracked, [])) ∧
    (StateSync.resource_exists_in_state (StateSync.detector_address p r) state = true →
      StateSync.detector_step env state p aid r = (StateSync.Outcome.alreadyTracked, [])) ∧
    (StateSync.resource_exists_in_state (StateSync.pub_address r) state = true →
      StateSync.pub_step env audit state r = (StateSync.Outcome.alreadyTracked, [])) ∧
    (StateSync.resource_exists_in_state StateSync.log_group_address state = true →
      StateSync.sync_cloudwatch_log_group env tfvars state =
        (StateSync.Outcome.alreadyTracked, [])) ∧
    (StateSync.resource_exists_in_state a
        (StateSync.get_state_resources env.state_list_exec) = true →
      Event.importCall a rid ∉ (StateSync.state_sync_main env tfvars).trace) := by
  refine ⟨?_, ?_, ?_, ?_, ?_⟩
  · intro h
    simp [StateSync.org_admin_step, h]
  · intro h
    simp [StateSync.detector_step, h]
  · intro h
    simp [StateSync.pub_step, h]
  · intro h
    simp [StateSync.sync_cloudwatch_log_group, h]
  · intro h hmem
    have := (state_sync_main_import env tfvars a rid hmem).2
    rw [h] at this
    exact Bool.true_eq_false.mp this

/-- A state snapshot that already tracks the us-east-1 delegated admin. -/
def c2_env : StateSync.CloudEnv :=
  { happyEnv with
    state_list_exec := (StateSync.TfExec.completed 0
      "module.guardduty_org_us_east_1[0].aws_guardduty_organization_admin_account.main") }

theorem claim2_state_index_precedence_witness :
    StateSync.org_admin_step c2_env "222222222222"
      (StateSync.get_state_resources c2_env.state_list_exec) "us-east-1" =
      (StateSync.Outcome.alreadyTracked, []) ∧
    Event.importCall
      "module.guardduty_org_us_east_1[0].aws_guardduty_organization_admin_account.main"
      "222222222222" ∉ (StateSync.state_sync_main c2_env (some sample_tfvars)).trace :=
  ⟨(claim2_state_index_precedence c2_env (some sample_tfvars)
      (StateSync.get_state_resources c2_env.state_list_exec) "222222222222" "mgmt" "us-east-1"
      "module.guardduty_org_us_east_1[0].aws_guardduty_organization_admin_account.main"
      "222222222222" none).1 (by decide),
   (claim2_state_index_precedence c2_env (some sample_tfvars)
      (StateSync.get_state_resources c2_env.state_list_exec) "222222222222" "mgmt" "us-east-1"
      "module.guardduty_org_us_east_1[0].aws_guardduty_organization_admin_account.main"
      "222222222222" none).2.2.2.2 (by decide)⟩

/-! ## C9: the warm-up plan -/

lemma org_admin_step_no_warmup (env : StateSync.CloudEnv) (audit : String)
    (state : List String) (r : String) :
    Event.warmUp ∉ (StateSync.org_admin_step env audit state r).2 := by
  by_cases hc : StateSync.resource_exists_in_state (StateSync.org_admin_address r) state = true
  · simp [StateSync.org_admin_step, hc]
  · simp only [Bool.not_eq_true] at hc
    cases hld : env.list_organization_admin_accounts r with
    | error msg => simp [StateSync.org_admin_step, hc, hld]
    | ok admins =>
        by_cases hca : audit ∈ admins
        · by_cases him : StateSync.import_resource
              (StateSync.import_runs env (StateSync.org_admin_address r) audit) = true
          · simp [StateSync.org_admin_step, hc, hld, hca, him]
          · simp only [Bool.not_eq_true] at him
            simp [StateSync.org_admin_step, hc, hld, hca, him]
        · simp [StateSync.org_admin_step, hc, hld, hca]

lemma detector_probe_no_warmup (env : StateSync.CloudEnv) (tf_address : String)
    (session : Option String) (region : String) (pre : List Event)
    (hpre : Event.warmUp ∉ pre) :
    Event.warmUp ∉ (StateSync.detector_probe env tf_address session region pre).2 := by
  cases hld : env.list_detectors session region with
  | error msg => simp [StateSync.detector_probe, hld, hpre]
  | ok ds =>
      cases ds with
      | nil => simp [StateSync.detector_probe, hld, hpre]
      | cons d rest =>
          by_cases him : StateSync.import_resource
              (StateSync.import_runs env tf_address d) = true
          · simp [StateSync.detector_probe, hld, hpre, him]
          · simp only [Bool.not_eq_true] at him
            simp [StateSync.detector_probe, hld, hpre, him]

lemma detector_step_no_warmup (env : StateSync.CloudEnv) (state : List String)
    (p : String) (aid : Option String) (r : String) :
    Event.warmUp ∉ (StateSync.detector_step env state p aid r).2 := by
  by_cases hc : StateSync.resource_exists_in_state (StateSync.detector_address p r) state = true
  · simp [StateSync.detector_step, hc]
  · simp only [Bool.not_eq_true] at hc
    cases aid with
    | none =>
        simp only [StateSync.detector_step, hc, Bool.false_eq_true, if_false]
        exact detector_probe_no_warmup _ _ _ _ _ (by simp)
    | some acct =>
        by_cases hrole : env.assume_role_ok acct r = true
        · simp only [StateSync.detector_step, hc, Bool.false_eq_true, if_false, hrole, if_true]
          exact detector_probe_no_warmup _ _ _ _ _ (by simp)
        · simp only [Bool.not_eq_true] at hrole
          simp [StateSync.detector_step, hc, hrole]

lemma pub_step_no_warmup (env : StateSync.CloudEnv) (audit : String)
    (state : List String) (r : String) :
    Event.warmUp ∉ (StateSync.pub_step env audit state r).2 := by
  by_cases hc : StateSync.resource_exists_in_state (StateSync.pub_address r) state = true
  · simp [StateSync.pub_step, hc]
  · simp only [Bool.not_eq_true] at hc
    by_cases hrole : env.assume_role_ok audit r = true
    · cases hld : env.list_detectors (some audit) r with
      | error msg => simp [StateSync.pub_step, hc, hrole, hld]
      | ok ds =>
          cases ds with
          | nil => simp [StateSync.pub_step, hc, hrole, hld]
          | cons d rest =>
              cases hpd : env.list_publishing_destinations audit r d with
              | error msg => simp [StateSync.pub_step, hc, hrole, hld, hpd]
              | ok dests =>
                  cases hf : dests.find? (fun x => x.destination_type == some "S3") with
                  | none => simp [StateSync.pub_step, hc, hrole, hld, hpd, hf]
                  | some dest =>
                      by_cases him : StateSync.import_resource
                          (StateSync.import_runs env (StateSync.pub_address r)
                            (d ++ ":" ++ dest.destination_id)) = true
                      · simp [StateSync.pub_step, hc, hrole, hld, hpd, hf, him]
                      · simp only [Bool.not_eq_true] at him
                        simp [StateSync.pub_step, hc, hrole, hld, hpd, hf, him]
    · simp only [Bool.not_eq_true] at hrole
      simp [StateSync.pub_step, hc, hrole]

lemma log_group_no_warmup (env : StateSync.CloudEnv) (tfvars : Option StateSync.TfVarsJson)
    (state : List String) :
    Event.warmUp ∉ (StateSync.sync_cloudwatch_log_group env tfvars state).2 := by
  by_cases hc : StateSync.resource_exists_in_state StateSync.log_group_address state = true
  · simp [StateSync.sync_cloudwatch_log_group, hc]
  · simp only [Bool.not_eq_true] at hc
    cases tfvars with
    | none => simp [StateSync.sync_cloudwatch_log_group, hc]
    | some tv =>
        by_cases hpd : (tv.resource_prefix).getD "" = "" ∨ (tv.deployment_name).getD "" = ""
        · simp [StateSync.sync_cloudwatch_log_group, hc, hpd]
        · by_cases him : StateSync.import_resource
              (StateSync.import_runs env StateSync.log_group_address
                ("/" ++ (tv.resource_prefix).getD "" ++ "/deployments/" ++
                  (tv.deployment_name).getD "")) = true
          · simp [StateSync.sync_cloudwatch_log_group, hc, hpd, him]
          · simp only [Bool.not_eq_true] at him
            simp [StateSync.sync_cloudwatch_log_group, hc, hpd, him]

lemma sync_events_no_warmup (env : StateSync.CloudEnv) (tfvars : Option StateSync.TfVarsJson)
    (state : List String) :
    Event.warmUp ∉ (StateSync.sync_guardduty_org_admin env tfvars state).events ∧
    Event.warmUp ∉ (StateSync.sync_guardduty_detectors env tfvars state).events ∧
    Event.warmUp ∉ (StateSync.sync_guardduty_publishing_destinations env tfvars state).events := by
  refine ⟨?_, ?_, ?_⟩
  · intro hmem
    rw [StateSync.sync_guardduty_org_admin] at hmem
    split at hmem
    · simp at hmem
    · obtain ⟨t, ht, hmt⟩ := sweep_events_mem _ _ _ hmem
      exact org_admin_step_no_warmup env _ state t hmt
  · intro hmem
    rw [StateSync.sync_guardduty_detectors] at hmem
    split at hmem
    · simp at hmem
    · obtain ⟨t, ht, hmt⟩ := sweep_events_mem _ _ _ hmem
      exact detector_step_no_warmup env state t.1 t.2.1 t.2.2 hmt
  · intro hmem
    rw [StateSync.sync_guardduty_publishing_destinations] at hmem
    split at hmem
    · simp at hmem
    · obtain ⟨t, ht, hmt⟩ := sweep_events_mem _ _ _ hmem
      exact pub_step_no_warmup env _ state t hmt

/-- C9: the warm-up refresh-only plan runs exactly when the state snapshot
is empty, exactly once, at the head of the trace — before any import —
and its result has no effect on anything else the run computes. -/
theorem claim9_warm_up (env : StateSync.CloudEnv) (tfvars : Option StateSync.TfVarsJson) :
    (∃ rest, (StateSync.state_sync_main env tfvars).trace =
        (if (StateSync.state_sync_main env tfvars).state_resources.length = 0
          then [Event.warmUp] else []) ++ rest ∧ Event.warmUp ∉ rest) ∧
    ((StateSync.state_sync_main env tfvars).warm_up_run = true ↔
      (StateSync.state_sync_main env tfvars).state_resources.length = 0) ∧
    (∀ e, StateSync.state_sync_main { env with warm_up_exec := e } tfvars =
      StateSync.state_sync_main env tfvars) ∧
    (∀ e, StateSync.warm_up_providers { env with warm_up_exec := e } =
      StateSync.run_terraform_cmd e 300) := by
  refine ⟨?_, ?_, fun e => rfl, fun e => rfl⟩
  · refine ⟨(StateSync.sync_cloudwatch_log_group env tfvars
        (StateSync.get_state_resources env.state_list_exec)).2 ++
      ((StateSync.sync_guardduty_org_admin env tfvars
        (StateSync.get_state_resources env.state_list_exec)).events ++
      ((StateSync.sync_guardduty_detectors env tfvars
        (StateSync.get_state_resources env.state_list_exec)).events ++
      (StateSync.sync_guardduty_publishing_destinations env tfvars
        (StateSync.get_state_resources env.state_list_exec)).events)), ?_, ?_⟩
    · simp only [StateSync.state_sync_main, List.append_assoc]
    intro hmem
    rcases List.mem_append.mp hmem with h | hmem
    · exact log_group_no_warmup env tfvars _ h
    rcases List.mem_append.mp hmem with h | hmem
    · exact (sync_events_no_warmup env tfvars _).1 h
    rcases List.mem_append.mp hmem with h | h
    · exact (sync_events_no_warmup env tfvars _).2.1 h
    · exact (sync_events_no_warmup env tfvars _).2.2 h
  · simp [StateSync.state_sync_main]

/-! ## C10: a failed state read is an empty snapshot -/

lemma get_state_resources_failed (e : StateSync.TfExec)
    (h : (StateSync.run_terraform_cmd e 120).1 = false) :
    StateSync.get_state_resources e = [] := by
  unfold StateSync.get_state_resources
  simp [h]

lemma sync_org_admin_env_state_exec (env : StateSync.CloudEnv) (e : StateSync.TfExec)
    (tfvars : Option StateSync.TfVarsJson) (state : List String) :
    StateSync.sync_guardduty_org_admin { env with state_list_exec := e } tfvars state =
      StateSync.sync_guardduty_org_admin env tfvars state := rfl

lemma sync_detectors_env_state_exec (env : StateSync.CloudEnv) (e : StateSync.TfExec)
    (tfvars : Option StateSync.TfVarsJson) (state : List String) :
    StateSync.sync_guardduty_detectors { env with state_list_exec := e } tfvars state =
      StateSync.sync_guardduty_detectors env tfvars state := rfl

lemma sync_pub_env_state_exec (env : StateSync.CloudEnv) (e : StateSync.TfExec)
    (tfvars : Option StateSync.TfVarsJson) (state : List String) :
    StateSync.sync_guardduty_publishing_destinations { env with state_list_exec := e } tfvars
        state =
      StateSync.sync_guardduty_publishing_destinations env tfvars state := rfl

lemma sync_log_group_env_state_exec (env : StateSync.CloudEnv) (e : StateSync.TfExec)
    (tfvars : Option StateSync.TfVarsJson) (state : List String) :
    StateSync.sync_cloudwatch_log_group { env with state_list_exec := e } tfvars state =
      StateSync.sync_cloudwatch_log_group env tfvars state := rfl

lemma detector_probe_not_tracked (env : StateSync.CloudEnv) (tf_address : String)
    (session : Option String) (region : String) (pre : List Event) :
    (StateSync.detector_probe env tf_address session region pre).1 ≠
      StateSync.Outcome.alreadyTracked := by
  cases hld : env.list_detectors session region with
  | error msg => simp [StateSync.detector_probe, hld]
  | ok ds =>
      cases ds with
      | nil => simp [StateSync.detector_probe, hld]
      | cons d rest =>
          by_cases him : StateSync.import_resource
              (StateSync.import_runs env tf_address d) = true
          · simp [StateSync.detector_probe, hld, him]
          · simp only [Bool.not_eq_true] at him
            simp [StateSync.detector_probe, hld, him]

lemma org_admin_step_untracked (env : StateSync.CloudEnv) (audit : String)
    (state : List String) (r : String)
    (hc : StateSync.resource_exists_in_state (StateSync.org_admin_address r) state = false) :
    (StateSync.org_admin_step env audit state r).1 ≠ StateSync.Outcome.alreadyTracked := by
  cases hld : env.list_organization_admin_accounts r with
  | error msg => simp [StateSync.org_admin_step, hc, hld]
  | ok admins =>
      by_cases hca : audit ∈ admins
      · by_cases him : StateSync.import_resource
            (StateSync.import_runs env (StateSync.org_admin_address r) audit) = true
        · simp [StateSync.org_admin_step, hc, hld, hca, him]
        · simp only [Bool.not_eq_true] at him
          simp [StateSync.org_admin_step, hc, hld, hca, him]
      · simp [StateSync.org_admin_step, hc, hld, hca]

lemma detector_step_untracked (env : StateSync.CloudEnv) (state : List String)
    (p : String) (aid : Option String) (r : String)
    (hc : StateSync.resource_exists_in_state (StateSync.detector_address p r) state = false) :
    (StateSync.detector_step env state p aid r).1 ≠ StateSync.Outcome.alreadyTracked := by
  cases aid with
  | none =>
      simp only [StateSync.detector_step, hc, Bool.false_eq_true, if_false]
      exact detector_probe_not_tracked _ _ _ _ _
  | some acct =>
      by_cases hrole : env.assume_role_ok acct r = true
      · simp only [StateSync.detector_step, hc, Bool.false_eq_true, if_false, hrole, if_true]
        exact detector_probe_not_tracked _ _ _ _ _
      · simp only [Bool.not_eq_true] at hrole
        simp [StateSync.detector_step, hc, hrole]

lemma pub_step_untracked (env : StateSync.CloudEnv) (audit : String)
    (state : List String) (r : String)
    (hc : StateSync.resource_exists_in_state (StateSync.pub_address r) state = false) :
    (StateSync.pub_step env audit state r).1 ≠ StateSync.Outcome.alreadyTracked := by
  by_cases hrole : env.assume_role_ok audit r = true
  · cases hld : env.list_detectors (some audit) r with
    | error msg => simp [StateSync.pub_step, hc, hrole, hld]
    | ok ds =>
        cases ds with
        | nil => simp [StateSync.pub_step, hc, hrole, hld]
        | cons d rest =>
            cases hpd : env.list_publishing_destinations audit r d with
            | error msg => simp [StateSync.pub_step, hc, hrole, hld, hpd]
            | ok dests =>
                cases hf : dests.find? (fun x => x.destination_type == some "S3") with
                | none => simp [StateSync.pub_step, hc, hrole, hld, hpd, hf]
                | some dest =>
                    by_cases him : StateSync.import_resource
                        (StateSync.import_runs env (StateSync.pub_address r)
                          (d ++ ":" ++ dest.destination_id)) = true
                    · simp [StateSync.pub_step, hc, hrole, hld, hpd, hf, him]
                    · simp only [Bool.not_eq_true] at him
                      simp [StateSync.pub_step, hc, hrole, hld, hpd, hf, him]
  · simp only [Bool.not_eq_true] at hrole
    simp [StateSync.pub_step, hc, hrole]

lemma log_group_untracked (env : StateSync.CloudEnv) (tfvars : Option StateSync.TfVarsJson)
    (state : List String)
    (hc : StateSync.resource_exists_in_state StateSync.log_group_address state = false) :
    (StateSync.sync_cloudwatch_log_group env tfvars state).1 ≠
      StateSync.Outcome.alreadyTracked := by
  cases tfvars with
  | none => simp [StateSync.sync_cloudwatch_log_group, hc]
  | some tv =>
      by_cases hpd : (tv.resource_prefix).getD "" = "" ∨ (tv.deployment_name).getD "" = ""
      · simp [StateSync.sync_cloudwatch_log_group, hc, hpd]
      · by_cases him : StateSync.import_resource
            (StateSync.import_runs env StateSync.log_group_address
              ("/" ++ (tv.resource_prefix).getD "" ++ "/deployments/" ++
                (tv.deployment_name).getD "")) = true
        · simp [StateSync.sync_cloudwatch_log_group, hc, hpd, him]
        · simp only [Bool.not_eq_true] at him
          simp [StateSync.sync_cloudwatch_log_group, hc, hpd, him]

lemma count_outcome_zero {α : Type} (r : StateSync.SyncResult α) (o : StateSync.Outcome)
    (h : ∀ q ∈ r.outcomes, q.2 ≠ o) : StateSync.count_outcome r o = 0 := by
  have hnil : r.outcomes.filter (fun q => decide (q.2 = o)) = [] := by
    rw [List.filter_eq_nil_iff]
    intro q hq
    simpa using h q hq
  simp [StateSync.count_outcome, hnil]

lemma sync_skipped_zero_empty_state (env : StateSync.CloudEnv)
    (tfvars : Option StateSync.TfVarsJson) :
    StateSync.skipped_count (StateSync.sync_guardduty_org_admin env tfvars []) = 0 ∧
    StateSync.skipped_count (StateSync.sync_guardduty_detectors env tfvars []) = 0 ∧
    StateSync.skipped_count (StateSync.sync_guardduty_publishing_destinations env tfvars []) = 0 := by
  refine ⟨?_, ?_, ?_⟩ <;> unfold StateSync.skipped_count <;> apply count_outcome_zero <;>
    intro q hq
  · rw [StateSync.sync_guardduty_org_admin] at hq
    split at hq
    · simp at hq
    · simp only [StateSync.sweep, List.mem_map] at hq
      obtain ⟨t, ht, rfl⟩ := hq
      exact org_admin_step_untracked env _ [] t rfl
  · rw [StateSync.sync_guardduty_detectors] at hq
    split at hq
    · simp at hq
    · simp only [StateSync.sweep, List.mem_map] at hq
      obtain ⟨t, ht, rfl⟩ := hq
      exact detector_step_untracked env [] t.1 t.2.1 t.2.2 rfl
  · rw [StateSync.sync_guardduty_publishing_destinations] at hq
    split at hq
    · simp at hq
    · simp only [StateSync.sweep, List.mem_map] at hq
      obtain ⟨t, ht, rfl⟩ := hq
      exact pub_step_untracked env _ [] t rfl

/-- C10: when `terraform state list` fails — non-zero exit, timeout or
exception — the snapshot is the empty set, indistinguishable from a
genuinely empty state: the whole run equals the run over an empty state,
the warm-up is triggered, no target is recorded already-tracked, and any
target whose probe finds a resource still gets an import call. -/
theorem claim10_state_read_failure (env : StateSync.CloudEnv)
    (tfvars : Option StateSync.TfVarsJson) (tf_address : String) :
    (∀ cmd, StateSync.get_state_resources (StateSync.TfExec.timedOut cmd) = []) ∧
    (∀ msg, StateSync.get_state_resources (StateSync.TfExec.raised msg) = []) ∧
    (∀ rc out, rc ≠ 0 → StateSync.get_state_resources (StateSync.TfExec.completed rc out) = []) ∧
    (∀ e, (StateSync.run_terraform_cmd e 120).1 = false →
      StateSync.state_sync_main { env with state_list_exec := e } tfvars =
        StateSync.state_sync_main { env with state_list_exec := StateSync.TfExec.completed 0 "" }
          tfvars) ∧
    (∀ e, (StateSync.run_terraform_cmd e 120).1 = false →
      (StateSync.state_sync_main { env with state_list_exec := e } tfvars).warm_up_run = true ∧
      StateSync.skipped_count
        (StateSync.state_sync_main { env with state_list_exec := e } tfvars).org_admin = 0 ∧
      StateSync.skipped_count
        (StateSync.state_sync_main { env with state_list_exec := e } tfvars).detectors = 0 ∧
      StateSync.skipped_count
        (StateSync.state_sync_main { env with state_list_exec := e } tfvars).publishing = 0 ∧
      ((StateSync.state_sync_main { env with state_list_exec := e } tfvars).log_group).1 ≠
        StateSync.Outcome.alreadyTracked) ∧
    (∀ d ds session region pre, env.list_detectors session region = Except.ok (d :: ds) →
      Event.importCall tf_address d ∈
        (StateSync.detector_probe env tf_address session region pre).2) := by
  refine ⟨fun cmd => rfl, fun msg => rfl, ?_, ?_, ?_, ?_⟩
  · intro rc out hrc
    unfold StateSync.get_state_resources StateSync.run_terraform_cmd
    simp [hrc]
  · intro e he
    have h1 : StateSync.get_state_resources e = [] := get_state_resources_failed e he
    have h2 : StateSync.get_state_resources (StateSync.TfExec.completed 0 "") = [] := rfl
    simp only [StateSync.state_sync_main, h1, h2, sync_org_admin_env_state_exec,
      sync_detectors_env_state_exec, sync_pub_env_state_exec, sync_log_group_env_state_exec]
  · intro e he
    have h1 : StateSync.get_state_resources e = [] := get_state_resources_failed e he
    refine ⟨?_, ?_, ?_, ?_, ?_⟩ <;>
      simp only [StateSync.state_sync_main, h1, sync_org_admin_env_state_exec,
        sync_detectors_env_state_exec, sync_pub_env_state_exec, sync_log_group_env_state_exec]
    · simp
    · exact (sync_skipped_zero_empty_state env tfvars).1
    · exact (sync_skipped_zero_empty_state env tfvars).2.1
    · exact (sync_skipped_zero_empty_state env tfvars).2.2
    · exact log_group_untracked env tfvars [] rfl
  · intro d ds session region pre hok
    unfold StateSync.detector_probe
    rw [hok]
    by_cases him : StateSync.import_resource (StateSync.import_runs env tf_address d) = true <;>
      simp [him]

theorem claim10_state_read_failure_witness :
    (StateSync.run_terraform_cmd (StateSync.TfExec.raised "boom") 120).1 = false ∧
    StateSync.get_state_resources (StateSync.TfExec.raised "boom") = [] ∧
    (StateSync.state_sync_main { happyEnv with state_list_exec := StateSync.TfExec.raised "boom" }
        (some sample_tfvars)).warm_up_run = true :=
  ⟨by decide,
   (claim10_state_read_failure happyEnv (some sample_tfvars) "x").2.1 "boom",
   ((claim10_state_read_failure happyEnv (some sample_tfvars) "x").2.2.2.2.1
      (StateSync.TfExec.raised "boom") (by decide)).1⟩

/-! ## C7: the org-configuration category is never imported -/

lemma no_org_config_in_addresses :
    (strContainsSub StateSync.log_group_address
      "aws_guardduty_organization_configuration" = false) ∧
    (∀ r ∈ StateSync.ALL_REGIONS, strContainsSub (StateSync.org_admin_address r)
      "aws_guardduty_organization_configuration" = false) ∧
    (∀ r ∈ StateSync.ALL_REGIONS, strContainsSub (StateSync.detector_address "mgmt" r)
      "aws_guardduty_organization_configuration" = false) ∧
    (∀ r ∈ StateSync.ALL_REGIONS, strContainsSub (StateSync.detector_address "audit" r)
      "aws_guardduty_organization_configuration" = false) ∧
    (∀ r ∈ StateSync.ALL_REGIONS, strContainsSub (StateSync.pub_address r)
      "aws_guardduty_organization_configuration" = false) := by
  decide

/-- C7: no import call of any run — whatever the environment, the live
auto-enable value included — ever targets the organization-configuration
category: every imported address belongs to the log-group, delegated
admin, detector or publishing-destination category, and none of those
addresses mentions `aws_guardduty_organization_configuration`. -/
theorem claim7_no_org_config_import (env : StateSync.CloudEnv)
    (tfvars : Option StateSync.TfVarsJson) (a rid : String)
    (hm : Event.importCall a rid ∈ (StateSync.state_sync_main env tfvars).trace) :
    strContainsSub a "aws_guardduty_organization_configuration" = false := by
  rcases (state_sync_main_import env tfvars a rid hm).1 with
    h | ⟨r, hr, h⟩ | ⟨r, hr, h | h⟩ | ⟨r, hr, h⟩ <;> subst h
  · exact no_org_config_in_addresses.1
  · exact no_org_config_in_addresses.2.1 r hr
  · exact no_org_config_in_addresses.2.2.1 r hr
  · exact no_org_config_in_addresses.2.2.2.1 r hr
  · exact no_org_config_in_addresses.2.2.2.2 r hr

theorem claim7_no_org_config_import_witness :
    Event.importCall StateSync.log_group_address "/gd/deployments/portfolio-aws-org-guardduty" ∈
      (StateSync.state_sync_main happyEnv (some sample_tfvars)).trace ∧
    strContainsSub StateSync.log_group_address
      "aws_guardduty_organization_configuration" = false :=
  ⟨by decide,
   claim7_no_org_config_import happyEnv (some sample_tfvars) StateSync.log_group_address
     "/gd/deployments/portfolio-aws-org-guardduty" (by decide)⟩
